import Mathlib

/-!
Verification development for the analysis engine of the `cesar-money-mcp`
repository (files `src/analysis/spending.ts`, `anomalies.ts`, `trends.ts`,
`subscriptions.ts`, `health.ts`, `forecasting.ts`).

Modelling conventions, chosen once and used throughout:

* JavaScript numbers are modelled by `ℚ` (exact rational arithmetic), except
  where the source calls `Math.sqrt`, which is modelled by `Real.sqrt` on `ℝ`.
* `"YYYY-MM-DD"` date strings are modelled by the `YMD` structure below;
  lexicographic comparison of well-formed ISO date strings coincides with
  lexicographic comparison of the `(y, m, d)` triples, and
  `new Date(s).getTime()` is `86_400_000 * toDays s` (UTC midnight), so date
  subtraction in milliseconds divided by `msPerDay` is exactly a `toDays`
  difference.
* A JavaScript `Map` is modelled by an insertion-ordered association list,
  because the analyzers iterate `Map` entries in insertion order.
* `Array.prototype.sort(cmp)` (stable since ES2019) is modelled by the stable
  insertion sort `sortB keep` where `keep a b` means `cmp a b ≤ 0`
  (element `a` may stay in front of `b`).
* A field holding `{name: string} | null | undefined` is an `Option`;
  both `null` and `undefined` collapse to `none` (every access the engine
  performs treats them identically).
* Purely presentational string fields (`description` texts interpolating
  formatted numbers) are not modelled; no claim mentions their contents.
* Functions that read the ambient clock (`new Date()`, `todayISO()`) receive
  the current date explicitly as a final `today : YMD` argument.
* A statement that can throw is an `Except Unit` value; `.error ()` models a
  thrown `TypeError`.
-/

namespace MoneyMCP

/-! ## Calendar dates -/

/-- A calendar date, modelling a well-formed `"YYYY-MM-DD"` string. -/
structure YMD where
  y : Nat
  m : Nat
  d : Nat
deriving DecidableEq, Inhabited

/-- Strict comparison of dates; equals `<` on the underlying ISO strings. -/
def YMD.ltB (a b : YMD) : Bool :=
  decide (a.y < b.y ∨ (a.y = b.y ∧ (a.m < b.m ∨ (a.m = b.m ∧ a.d < b.d))))

/-- Weak comparison of dates; equals `<=` on the underlying ISO strings. -/
def YMD.leB (a b : YMD) : Bool :=
  decide (a.y < b.y ∨ (a.y = b.y ∧ (a.m < b.m ∨ (a.m = b.m ∧ a.d ≤ b.d))))

/-- Days since the Unix epoch of a date, as computed by
`new Date("YYYY-MM-DD").getTime() / 86_400_000` (days-from-civil algorithm). -/
def YMD.toDays (x : YMD) : Int :=
  let y : Int := if x.m ≤ 2 then (x.y : Int) - 1 else (x.y : Int)
  let era : Int := (if 0 ≤ y then y else y - 399) / 400
  let yoe : Int := y - era * 400
  let mp : Int := ((x.m : Int) + 9) % 12
  let doy : Int := (153 * mp + 2) / 5 + (x.d : Int) - 1
  let doe : Int := yoe * 365 + yoe / 4 - yoe / 100 + doy
  era * 146097 + doe - 719468

/-- Inverse of `YMD.toDays` (civil-from-days algorithm); models the calendar
normalisation JavaScript performs in `d.setDate(d.getDate() + k)`. -/
def YMD.fromDays (z0 : Int) : YMD :=
  let z : Int := z0 + 719468
  let era : Int := (if 0 ≤ z then z else z - 146096) / 146097
  let doe : Int := z - era * 146097
  let yoe : Int := (doe - doe / 1460 + doe / 36524 - doe / 146096) / 365
  let yy : Int := yoe + era * 400
  let doy : Int := doe - (365 * yoe + yoe / 4 - yoe / 100)
  let mp : Int := (5 * doy + 2) / 153
  let dd : Int := doy - (153 * mp + 2) / 5 + 1
  let mm : Int := if mp < 10 then mp + 3 else mp - 9
  ⟨(if mm ≤ 2 then yy + 1 else yy).toNat, mm.toNat, dd.toNat⟩

/-- Model of `addDays` in `forecasting.ts`: parse, `setDate(date + days)`,
reformat. -/
def addDays (x : YMD) (k : Int) : YMD := YMD.fromDays (x.toDays + k)

/-- Leap-year test of the Gregorian calendar. -/
def isLeap (y : Nat) : Bool := y % 4 = 0 && (y % 100 ≠ 0 || y % 400 = 0)

/-- Number of days in a month. -/
def daysInMonth (y m : Nat) : Nat :=
  if m = 1 then 31 else if m = 2 then (if isLeap y then 29 else 28)
  else if m = 3 then 31 else if m = 4 then 30 else if m = 5 then 31
  else if m = 6 then 30 else if m = 7 then 31 else if m = 8 then 31
  else if m = 9 then 30 else if m = 10 then 31 else if m = 11 then 30 else 31

/-- Model of JavaScript `d.setMonth(d.getMonth() + k)` on a valid date:
the month is advanced and a day-of-month overflow rolls into the following
month (for example Jan 31 + 1 month = Mar 3).  On valid dates (`d ≤ 31`) a
single roll suffices. -/
def addMonthsJS (x : YMD) (k : Nat) : YMD :=
  let total : Nat := (x.m - 1) + k
  let y : Nat := x.y + total / 12
  let m : Nat := total % 12 + 1
  if x.d ≤ daysInMonth y m then ⟨y, m, x.d⟩
  else if m = 12 then ⟨y + 1, 1, x.d - daysInMonth y m⟩
  else ⟨y, m + 1, x.d - daysInMonth y m⟩

/-- Model of JavaScript `d.setFullYear(d.getFullYear() + 1)` on a valid date
(Feb 29 of a leap year rolls to Mar 1 of the following year). -/
def addYearsJS (x : YMD) : YMD :=
  if x.d ≤ daysInMonth (x.y + 1) x.m then ⟨x.y + 1, x.m, x.d⟩
  else ⟨x.y + 1, x.m + 1, x.d - daysInMonth (x.y + 1) x.m⟩

/-! ## Shared numeric helpers -/

/-- Model of the shared helper `round(n) = Math.round(n * 100) / 100`.
JavaScript `Math.round` is `⌊x + 1/2⌋` (ties are rounded toward positive
infinity). -/
def round2 (q : ℚ) : ℚ := ((⌊q * 100 + 1 / 2⌋ : ℤ) : ℚ) / 100

/-- Modelled from the spec: rounding to two decimal places with ties going
half away from zero, the behaviour §4.1 of the spec ascribes to all monetary
outputs.  Written from the words of the spec for comparison with `round2`
above, which is translated from the source. -/
def round2HalfAwayFromZero (q : ℚ) : ℚ :=
  if q < 0 then -(((⌊-q * 100 + 1 / 2⌋ : ℤ) : ℚ) / 100)
  else ((⌊q * 100 + 1 / 2⌋ : ℤ) : ℚ) / 100

/-! ## Stable sort modelling `Array.prototype.sort` -/

/-- Insert `x` behind every element `y` of an already sorted list with
`keep y x = true` (comparator verdict at most `0`). -/
def insertB {α : Type} (keep : α → α → Bool) (x : α) : List α → List α
  | [] => [x]
  | y :: ys => if keep y x then y :: insertB keep x ys else x :: y :: ys

/-- Stable insertion sort processing the input left to right; models the
stable `Array.prototype.sort(cmp)` with `keep a b ↔ cmp a b ≤ 0`. -/
def sortB {α : Type} (keep : α → α → Bool) (l : List α) : List α :=
  l.foldl (fun acc x => insertB keep x acc) []

/-! ## Data model shared by the analyzers -/

/-- A transaction category; the source type is `{ name: string }`. -/
structure Category where
  name : String
deriving DecidableEq

/-- A transaction record (`Transaction` in `spending.ts`, with the nullable
category of the data model: `{name: string} | null | undefined` is an
`Option Category`). -/
structure Transaction where
  id : String
  date : YMD
  amount : ℚ
  merchant : String
  category : Option Category
deriving DecidableEq

/-- Lower-case an ASCII letter; models the effect of `toLowerCase()` on the
merchant strings handled by the engine. -/
def lowerChar (c : Char) : Char :=
  if 65 ≤ c.toNat ∧ c.toNat ≤ 90 then Char.ofNat (c.toNat + 32) else c

/-- Whitespace test used by `trim()`. -/
def isWsChar (c : Char) : Bool := c = ' ' || c = '\t' || c = '\n' || c = '\r'

/-- Model of `normalizeMerchant(merchant) = merchant.trim().toLowerCase()`
(identical helper in `anomalies.ts`, `subscriptions.ts`, `forecasting.ts`),
computed on the character list so that it reduces in the kernel. -/
def normalizeMerchant (s : String) : List Char :=
  (((s.data.map lowerChar).dropWhile isWsChar).reverse.dropWhile isWsChar).reverse

/-! ## Spending analysis (`spending.ts`) -/

namespace Spending

/-- One per-category bucket of the result (`SpendingBreakdown`). -/
structure SpendingBreakdown where
  category : String
  amount : ℚ
  percentage : ℚ
  transactionCount : Nat
deriving DecidableEq

/-- Prior-period comparison of the result. -/
structure Comparison where
  spendingChange : ℚ
  spendingChangePercent : ℚ
deriving DecidableEq

/-- The result record (`SpendingAnalysis`); `period` is split in two fields. -/
structure SpendingAnalysis where
  periodStart : YMD
  periodEnd : YMD
  totalSpending : ℚ
  totalIncome : ℚ
  netCashflow : ℚ
  topCategories : List SpendingBreakdown
  dailyAverage : ℚ
  comparisonToPriorPeriod : Option Comparison
deriving DecidableEq

/-- Options of `analyzeSpending` (`SpendingOptions`). -/
structure SpendingOptions where
  startDate : Option YMD := none
  endDate : Option YMD := none
  topN : Option Nat := none
  priorPeriodTransactions : Option (List Transaction) := none

/-- Predicate of the filter inside `filterByPeriod`. -/
def inPeriod (s e : Option YMD) (d : YMD) : Bool :=
  (match s with
   | some sd => !(YMD.ltB d sd)
   | none => true) &&
  (match e with
   | some ed => !(YMD.ltB ed d)
   | none => true)

/-- Model of `filterByPeriod`. -/
def filterByPeriod (txs : List Transaction) (s e : Option YMD) :
    List Transaction :=
  if s = none ∧ e = none then txs
  else txs.filter (fun tx => inPeriod s e tx.date)

/-- Model of `derivePeriod`; `today` is the ambient clock date read by
`new Date().toISOString().slice(0, 10)` in the source. -/
def derivePeriod (txs : List Transaction) (s e : Option YMD) (today : YMD) :
    YMD × YMD :=
  match s, e with
  | some sd, some ed => (sd, ed)
  | _, _ =>
    match txs with
    | [] => (s.getD today, e.getD today)
    | t0 :: _ =>
      let minD := txs.foldl
        (fun acc tx => if YMD.ltB tx.date acc then tx.date else acc) t0.date
      let maxD := txs.foldl
        (fun acc tx => if YMD.ltB acc tx.date then tx.date else acc) t0.date
      (s.getD minD, e.getD maxD)

/-- Model of the `daysBetween` helper of `spending.ts`:
`Math.max(1, Math.round((Date(b) - Date(a)) / msPerDay) + 1)` — the
millisecond difference is an exact whole number of days. -/
def daysBetween (a b : YMD) : Int := max 1 (b.toDays - a.toDays + 1)

/-- Category access `tx.category.name || "Uncategorized"` of `analyzeSpending`
line 83.  Reading `.name` of `null`/`undefined` throws a `TypeError`, hence
`Except`; an empty `name` is falsy and normalises to `"Uncategorized"`. -/
def categoryName : Option Category → Except Unit String
  | none => .error ()
  | some c => .ok (if c.name = "" then "Uncategorized" else c.name)

/-- Insertion-ordered update of the `categoryMap` entry of one expense. -/
def updateCat (m : List (String × ℚ × Nat)) (cat : String) (amt : ℚ) :
    List (String × ℚ × Nat) :=
  match m with
  | [] => [(cat, amt, 1)]
  | (c, a, n) :: rest =>
    if c = cat then (c, a + amt, n + 1) :: rest
    else (c, a, n) :: updateCat rest cat amt

/-- One iteration of the aggregation loop of `analyzeSpending` (lines 74-95). -/
def spendStep (st : ℚ × ℚ × List (String × ℚ × Nat)) (tx : Transaction) :
    Except Unit (ℚ × ℚ × List (String × ℚ × Nat)) :=
  let ts := if tx.amount < 0 then st.1 + |tx.amount| else st.1
  let ti := if tx.amount < 0 then st.2.1 else st.2.1 + tx.amount
  if tx.amount < 0 then do
    let cat ← categoryName tx.category
    .ok (ts, ti, updateCat st.2.2 cat |tx.amount|)
  else .ok (ts, ti, st.2.2)

/-- The aggregation loop of `analyzeSpending`. -/
def spendFold : List Transaction → (ℚ × ℚ × List (String × ℚ × Nat)) →
    Except Unit (ℚ × ℚ × List (String × ℚ × Nat))
  | [], st => .ok st
  | tx :: rest, st => do spendFold rest (← spendStep st tx)

/-- The loop computing `priorSpending` (lines 118-123). -/
def priorSpendingOf (prior : List Transaction) : ℚ :=
  prior.foldl (fun s tx => if tx.amount < 0 then s + |tx.amount| else s) 0

/-- Model of `analyzeSpending`.  `today` is the ambient clock date (used by
`derivePeriod` when period bounds cannot be derived otherwise). -/
def analyzeSpending (transactions : List Transaction)
    (options : SpendingOptions) (today : YMD) :
    Except Unit SpendingAnalysis := do
  let topN := options.topN.getD 10
  let filtered := filterByPeriod transactions options.startDate options.endDate
  let period := derivePeriod filtered options.startDate options.endDate today
  let agg ← spendFold filtered (0, 0, [])
  let totalSpending := agg.1
  let totalIncome := agg.2.1
  let breakdowns := agg.2.2.map fun e =>
    { category := e.1
      amount := round2 e.2.1
      percentage :=
        if 0 < totalSpending then round2 (e.2.1 / totalSpending * 100) else 0
      transactionCount := e.2.2 : SpendingBreakdown }
  let topCategories :=
    (sortB (fun a b => decide (b.amount ≤ a.amount)) breakdowns).take topN
  let days := daysBetween period.1 period.2
  let dailyAverage :=
    if 0 < days then round2 (totalSpending / (days : ℚ)) else round2 totalSpending
  let comparisonToPriorPeriod :=
    match options.priorPeriodTransactions with
    | some prior =>
      if prior.length > 0 then
        let priorSpending := priorSpendingOf prior
        let spendingChange := round2 (totalSpending - priorSpending)
        some { spendingChange
               spendingChangePercent :=
                 if 0 < priorSpending then
                   round2 (spendingChange / priorSpending * 100)
                 else 0 : Comparison }
      else none
    | none => none
  .ok { periodStart := period.1
        periodEnd := period.2
        totalSpending := round2 totalSpending
        totalIncome := round2 totalIncome
        netCashflow := round2 (totalIncome - totalSpending)
        topCategories
        dailyAverage
        comparisonToPriorPeriod }

end Spending

/-! ## Financial health score (`health.ts`) -/

namespace Health

/-- One component of the health score; the presentational `description`
string is not modelled. -/
structure ComponentScore where
  score : ℚ
  value : ℚ
deriving DecidableEq

/-- Account type enumeration of `HealthAccount`. -/
inductive AccountType
  | depository
  | investment
  | credit
  | loan
  | mortgage
  | other
deriving DecidableEq

/-- An account record (`HealthAccount`). -/
structure HealthAccount where
  id : String
  displayName : String
  currentBalance : ℚ
  type : AccountType
deriving DecidableEq

/-- A budget line item (`BudgetItem`). -/
structure BudgetItem where
  category : String
  budgeted : ℚ
  actual : ℚ
deriving DecidableEq

/-- A net-worth snapshot (`NetWorthPoint`). -/
structure NetWorthPoint where
  date : YMD
  netWorth : ℚ
deriving DecidableEq

/-- The input bundle of `calculateHealthScore` (`HealthData`). -/
structure HealthData where
  accounts : List HealthAccount
  transactions : List Transaction
  budgets : List BudgetItem
  netWorthHistory : List NetWorthPoint
  emergencyFundMonths : Option ℚ := none

/-- The composite result (`HealthScore`); the five components are flattened
into fields. -/
structure HealthScore where
  overall : ℚ
  savingsRate : ComponentScore
  debtRatio : ComponentScore
  emergencyFund : ComponentScore
  budgetAdherence : ComponentScore
  netWorthTrend : ComponentScore
  recommendations : List String
deriving DecidableEq

/-- Model of the `linearScale` utility. -/
def linearScale (value inMin inMax outMin outMax : ℚ) : ℚ :=
  if inMax = inMin then (outMin + outMax) / 2
  else outMin + (value - inMin) / (inMax - inMin) * (outMax - outMin)

/-- Model of the `clamp` utility: `Math.min(max, Math.max(min, value))`. -/
def clamp (value mn mx : ℚ) : ℚ := min mx (max mn value)

/-- Model of the `daysBetween` helper of `health.ts` (absolute whole-day
difference). -/
def daysBetween (a b : YMD) : Int := |b.toDays - a.toDays|

/-- Model of `scoreSavingsRate`. -/
def scoreSavingsRate (transactions : List Transaction) : ComponentScore :=
  if transactions.length = 0 then ⟨50, 0⟩
  else
    let income := transactions.foldl
      (fun s tx => if 0 < tx.amount then s + tx.amount else s) 0
    let spending := transactions.foldl
      (fun s tx => if 0 < tx.amount then s else s + |tx.amount|) 0
    if income = 0 then ⟨0, 0⟩
    else
      let rate := (income - spending) / income
      ⟨clamp (round2 (linearScale rate (-(1/10)) (1/4) 0 100)) 0 100,
       round2 (rate * 100)⟩

/-- Liability account types in `scoreDebtRatio`. -/
def isDebtType : AccountType → Bool
  | .credit => true
  | .loan => true
  | .mortgage => true
  | _ => false

/-- Model of `scoreDebtRatio`. -/
def scoreDebtRatio (accounts : List HealthAccount) : ComponentScore :=
  if accounts.length = 0 then ⟨50, 0⟩
  else
    let debts : ℚ := accounts.foldl
      (fun s a => if isDebtType a.type then s + |a.currentBalance| else s) 0
    let assets : ℚ := accounts.foldl
      (fun s a => if isDebtType a.type then s else s + max 0 a.currentBalance) 0
    if assets = 0 ∧ debts = 0 then ⟨50, 0⟩
    else
      let ratio := if 0 < assets then debts / assets
                   else if 0 < debts then 1 else 0
      ⟨clamp (round2 (linearScale ratio 1 0 0 100)) 0 100, round2 (ratio * 100)⟩

/-- Model of `scoreEmergencyFund`. -/
def scoreEmergencyFund (accounts : List HealthAccount)
    (transactions : List Transaction) (targetMonths : ℚ) : ComponentScore :=
  let liquid := (accounts.filter
      (fun a => a.type = AccountType.depository)).foldl
    (fun s a => s + max 0 a.currentBalance) 0
  let expenses := transactions.filter (fun tx => tx.amount < 0)
  match expenses with
  | [] => if 0 < liquid then ⟨75, 0⟩ else ⟨50, 0⟩
  | e0 :: _ =>
    let totalExpenses := expenses.foldl (fun s tx => s + |tx.amount|) 0
    let dates := sortB (fun a b => YMD.leB a b) (expenses.map (fun tx => tx.date))
    let firstDate := dates.headD e0.date
    let lastDate := dates.getLastD e0.date
    let daysSpanned : Int := max 1 (daysBetween firstDate lastDate + 1)
    let monthsSpanned : ℚ := (daysSpanned : ℚ) / 30
    let monthlyExpenses := totalExpenses / monthsSpanned
    if monthlyExpenses = 0 then ⟨100, 0⟩
    else
      let monthsCovered := liquid / monthlyExpenses
      ⟨clamp (round2 (linearScale monthsCovered 0 targetMonths 0 100)) 0 100,
       round2 monthsCovered⟩

/-- Model of `scoreBudgetAdherence` (the overspend percentage feeds only the
description string and is not modelled). -/
def scoreBudgetAdherence (budgets : List BudgetItem) : ComponentScore :=
  if budgets.length = 0 then ⟨50, 0⟩
  else
    let onBudgetCount := (budgets.filter (fun b => b.actual ≤ b.budgeted)).length
    let adherenceRate := (onBudgetCount : ℚ) / (budgets.length : ℚ)
    ⟨clamp (round2 (adherenceRate * 100)) 0 100, round2 (adherenceRate * 100)⟩

/-- Model of `scoreNetWorthTrend`. -/
def scoreNetWorthTrend (history : List NetWorthPoint) : ComponentScore :=
  if history.length < 2 then ⟨50, 0⟩
  else
    let sorted := sortB (fun a b => YMD.leB a.date b.date) history
    match sorted with
    | [] => ⟨50, 0⟩
    | h0 :: _ =>
      let first := h0.netWorth
      let last := (sorted.getLastD h0).netWorth
      let totalChange := last - first
      let changePct :=
        if first ≠ 0 then round2 (totalChange / |first| * 100)
        else if 0 < totalChange then 100 else 0
      ⟨clamp (round2 (linearScale changePct (-20) 20 0 100)) 0 100,
       round2 changePct⟩

/-- Model of `generateRecommendations`. -/
def generateRecommendations (savingsRate debtRatio emergencyFund
    budgetAdherence netWorthTrend : ComponentScore) : List String :=
  let recs :=
    (if savingsRate.score < 50 then
      ["Increase your savings rate by reducing discretionary spending or finding additional income sources."]
     else []) ++
    (if debtRatio.score < 50 then
      ["Focus on paying down high-interest debt. Consider the avalanche or snowball method."]
     else []) ++
    (if emergencyFund.score < 50 then
      ["Build your emergency fund to cover at least 3-6 months of expenses in a high-yield savings account."]
     else []) ++
    (if budgetAdherence.score < 70 then
      ["Review budget categories where you are consistently overspending and adjust either spending or budget amounts."]
     else []) ++
    (if netWorthTrend.score < 50 then
      ["Your net worth is declining. Review large expenses, asset values, and debt balances."]
     else [])
  if recs.length = 0 then
    ["Your finances are in good shape. Consider increasing investment contributions for long-term growth."]
  else recs

/-- Model of `calculateHealthScore` with the fixed component weights. -/
def calculateHealthScore (data : HealthData) : HealthScore :=
  let savingsRate := scoreSavingsRate data.transactions
  let debtRatio := scoreDebtRatio data.accounts
  let emergencyFund := scoreEmergencyFund data.accounts data.transactions
    (data.emergencyFundMonths.getD 6)
  let budgetAdherence := scoreBudgetAdherence data.budgets
  let netWorthTrend := scoreNetWorthTrend data.netWorthHistory
  let overall := round2
    (savingsRate.score * (25/100) + debtRatio.score * (20/100) +
     emergencyFund.score * (20/100) + budgetAdherence.score * (20/100) +
     netWorthTrend.score * (15/100))
  { overall := clamp overall 0 100
    savingsRate
    debtRatio
    emergencyFund
    budgetAdherence
    netWorthTrend
    recommendations := generateRecommendations savingsRate debtRatio
      emergencyFund budgetAdherence netWorthTrend }

end Health

/-! ## Anomaly detection (`anomalies.ts`)

Merchant baselines carry a sample standard deviation computed by
`Math.sqrt`, modelled by `Real.sqrt`; the definitions of this module are
therefore noncomputable and evaluated in proofs by `simp`/`norm_num`. -/

namespace Anomalies

/-- The anomaly type enumeration; `frequency_change` is declared in the
source union type but, as claim C10 states, never produced. -/
inductive AnomalyType
  | unusualAmount
  | duplicate
  | newMerchant
  | frequencyChange
deriving DecidableEq

/-- Severity enumeration. -/
inductive Severity
  | low
  | medium
  | high
deriving DecidableEq

/-- The transaction excerpt embedded in an anomaly. -/
structure AnomalyTx where
  id : String
  date : YMD
  amount : ℚ
  merchant : String
deriving DecidableEq

/-- An anomaly record (the presentational `description` string is not
modelled). -/
structure Anomaly where
  type : AnomalyType
  severity : Severity
  transaction : AnomalyTx
deriving DecidableEq

/-- Options of `detectAnomalies` (`AnomalyOptions`). -/
structure AnomalyOptions where
  stdDevThreshold : Option ℚ := none
  duplicateWindowDays : Option ℚ := none
  minTransactionsForStats : Option Nat := none
  historicalTransactions : Option (List Transaction) := none

/-- A merchant baseline (`MerchantStat`). -/
structure MerchantStat where
  mean : ℚ
  stdDev : ℝ
  count : Nat

/-- Model of the `daysBetween` helper of `anomalies.ts`. -/
def daysBetween (a b : YMD) : Int := |b.toDays - a.toDays|

/-- Append an absolute amount to its merchant bucket, preserving `Map`
insertion order (`buildMerchantStats` lines 166-174). -/
def pushAmount (b : List (List Char × List ℚ)) (k : List Char) (amt : ℚ) :
    List (List Char × List ℚ) :=
  match b with
  | [] => [(k, [amt])]
  | (k0, l) :: rest =>
    if k0 = k then (k0, l ++ [amt]) :: rest
    else (k0, l) :: pushAmount rest k amt

/-- The bucket-building loop of `buildMerchantStats`. -/
def bucketsOf (txs : List Transaction) : List (List Char × List ℚ) :=
  txs.foldl (fun b tx => pushAmount b (normalizeMerchant tx.merchant) |tx.amount|) []

/-- Mean, sample standard deviation (Bessel, 0 when n is 1) and count of one
bucket (`buildMerchantStats` lines 178-188). -/
noncomputable def statsOf (amounts : List ℚ) : MerchantStat :=
  let n := amounts.length
  let mean := amounts.foldl (· + ·) 0 / (n : ℚ)
  let variance :=
    if 1 < n then
      (amounts.foldl (fun v a => v + (a - mean) * (a - mean)) 0) / ((n : ℚ) - 1)
    else 0
  ⟨mean, Real.sqrt (variance : ℝ), n⟩

/-- Model of `buildMerchantStats`. -/
noncomputable def buildMerchantStats (txs : List Transaction) :
    List (List Char × MerchantStat) :=
  (bucketsOf txs).map (fun b => (b.1, statsOf b.2))

/-- `Map.get` on the merchant-stat map. -/
def lookupStat (m : List (List Char × MerchantStat)) (k : List Char) :
    Option MerchantStat :=
  (m.find? (fun e => decide (e.1 = k))).map (fun e => e.2)

/-- Model of `severityFromMultiplier`. -/
noncomputable def severityFromMultiplier (m : ℝ) : Severity :=
  if 4 ≤ m then .high
  else if 3 ≤ m then .medium
  else .low

/-- Pass 1 of `detectAnomalies` (unusual amounts, lines 55-80). -/
noncomputable def unusualPass (txs : List Transaction)
    (stats : List (List Char × MerchantStat)) (stdDevThreshold : ℚ)
    (minTx : Nat) : List Anomaly :=
  txs.filterMap (fun tx =>
    match lookupStat stats (normalizeMerchant tx.merchant) with
    | none => none
    | some st =>
      if st.count < minTx then none
      else
        if 0 < st.stdDev ∧
            ((|(|tx.amount| - st.mean)| : ℚ) : ℝ) >
              (stdDevThreshold : ℝ) * st.stdDev then
          some ⟨.unusualAmount,
            severityFromMultiplier
              (((|(|tx.amount| - st.mean)| : ℚ) : ℝ) / st.stdDev),
            ⟨tx.id, tx.date, tx.amount, tx.merchant⟩⟩
        else none)

/-- The inner loop of pass 2 for a fixed transaction `tx`; the `break` once
the window is exceeded is a `takeWhile` over the chronologically sorted
suffix. -/
def dupInner (tx : Transaction) (rest : List Transaction) (window : ℚ) :
    List Anomaly :=
  (rest.takeWhile
      (fun o => decide (((daysBetween tx.date o.date : Int) : ℚ) ≤ window))).filterMap
    (fun o =>
      if tx.id ≠ o.id ∧
          normalizeMerchant tx.merchant = normalizeMerchant o.merchant ∧
          tx.amount = o.amount then
        some ⟨.duplicate, .medium, ⟨o.id, o.date, o.amount, o.merchant⟩⟩
      else none)

/-- Pass 2 of `detectAnomalies` (potential duplicates, lines 83-113), over
the date-sorted copy of the scan set. -/
def dupPass : List Transaction → ℚ → List Anomaly
  | [], _ => []
  | tx :: rest, w => dupInner tx rest w ++ dupPass rest w

/-- Pass 3 of `detectAnomalies` (new merchants, lines 116-140): a fold
carrying the seen-merchant set. -/
def newMerchantPass (txs : List Transaction)
    (baselineMerchants : List (List Char)) : List Anomaly :=
  (txs.foldl
    (fun (st : List (List Char) × List Anomaly) tx =>
      let norm := normalizeMerchant tx.merchant
      if st.1.contains norm then st
      else (norm :: st.1,
        st.2 ++ [⟨.newMerchant, .low, ⟨tx.id, tx.date, tx.amount, tx.merchant⟩⟩]))
    (baselineMerchants, [])).2

/-- Severity rank of the final comparator (`high` first). -/
def sevOrder : Severity → Nat
  | .high => 0
  | .medium => 1
  | .low => 2

/-- Comparator verdict (at most 0) of the final sort: severity ascending by
rank, ties broken by transaction date descending. -/
def anomalyKeep (a b : Anomaly) : Bool :=
  decide (sevOrder a.severity < sevOrder b.severity) ||
    (decide (sevOrder a.severity = sevOrder b.severity) &&
      YMD.leB b.transaction.date a.transaction.date)

/-- Model of `detectAnomalies`. -/
noncomputable def detectAnomalies (transactions : List Transaction)
    (options : AnomalyOptions) : List Anomaly :=
  if transactions.length = 0 then []
  else
    let stdDevThreshold := options.stdDevThreshold.getD 2
    let duplicateWindowDays := options.duplicateWindowDays.getD 3
    let minTx := options.minTransactionsForStats.getD 3
    let baseline := options.historicalTransactions.getD transactions
    let merchantStats := buildMerchantStats baseline
    let unusual := unusualPass transactions merchantStats stdDevThreshold minTx
    let sorted := sortB (fun a b => YMD.leB a.date b.date) transactions
    let dups := dupPass sorted duplicateWindowDays
    let news :=
      match options.historicalTransactions with
      | some hist =>
        newMerchantPass transactions
          (hist.map (fun tx => normalizeMerchant tx.merchant))
      | none => []
    sortB anomalyKeep (unusual ++ dups ++ news)

end Anomalies

/-! ## Trend detection (`trends.ts`) -/

namespace Trends

/-- A data point of a trend; `period` is the `(year, month)` pair modelling
the `"YYYY-MM"` slice (lexicographic string order coincides with
lexicographic pair order). -/
structure TrendPoint where
  period : Nat × Nat
  amount : ℚ
deriving DecidableEq

/-- Trend direction enumeration. -/
inductive Direction
  | increasing
  | decreasing
  | stable
deriving DecidableEq

/-- A per-category trend (`Trend`). -/
structure Trend where
  category : String
  direction : Direction
  changePercent : ℚ
  dataPoints : List TrendPoint
deriving DecidableEq

/-- Options of `detectTrends` (`TrendOptions`). -/
structure TrendOptions where
  minMonths : Option Nat := none
  stableThreshold : Option ℚ := none
  categories : Option (List String) := none
  startDate : Option YMD := none
  endDate : Option YMD := none

/-- Category access `tx.category?.name ?? "Uncategorized"` (nullish
coalescing: an empty name is kept). -/
def catNameNullish (tx : Transaction) : String :=
  match tx.category with
  | some c => c.name
  | none => "Uncategorized"

/-- Category access `tx.category?.name || "Uncategorized"` (an empty name is
falsy and normalises away). -/
def catNameFalsy (tx : Transaction) : String :=
  match tx.category with
  | some c => if c.name = "" then "Uncategorized" else c.name
  | none => "Uncategorized"

/-- Month key of a transaction date (`tx.date.slice(0, 7)`). -/
def monthOf (d : YMD) : Nat × Nat := (d.y, d.m)

/-- Comparator verdict `a <= b` on month keys (string `localeCompare`). -/
def monthLeB (a b : Nat × Nat) : Bool :=
  decide (a.1 < b.1 ∨ (a.1 = b.1 ∧ a.2 ≤ b.2))

/-- Insertion-ordered update of one month bucket
(`monthMap.set(month, (monthMap.get(month) ?? 0) + abs)`). -/
def updateMonth (mm : List ((Nat × Nat) × ℚ)) (k : Nat × Nat) (amt : ℚ) :
    List ((Nat × Nat) × ℚ) :=
  match mm with
  | [] => [(k, amt)]
  | (k0, v) :: rest =>
    if k0 = k then (k0, v + amt) :: rest
    else (k0, v) :: updateMonth rest k amt

/-- Insertion-ordered update of the per-category month map. -/
def updateCatMonth (cm : List (String × List ((Nat × Nat) × ℚ)))
    (cat : String) (k : Nat × Nat) (amt : ℚ) :
    List (String × List ((Nat × Nat) × ℚ)) :=
  match cm with
  | [] => [(cat, [(k, amt)])]
  | (c0, mm) :: rest =>
    if c0 = cat then (c0, updateMonth mm k amt) :: rest
    else (c0, mm) :: updateCatMonth rest cat k amt

/-- The `denominator = n * sumXX - sumX * sumX` accumulator expression of
`linearRegressionSlope`; the source is only ever called with
`xs = [0, 1, ..., n-1]`, which is inlined here, the accumulation loop being
written as sums over the index range. -/
def slopeDenom (ys : List ℚ) : ℚ :=
  (ys.length : ℚ) * (∑ i ∈ Finset.range ys.length, (i : ℚ) * (i : ℚ)) -
    (∑ i ∈ Finset.range ys.length, (i : ℚ)) *
    (∑ i ∈ Finset.range ys.length, (i : ℚ))

/-- The `n * sumXY - sumX * sumY` numerator expression of
`linearRegressionSlope` at `xs = [0..n-1]`. -/
def slopeNumer (ys : List ℚ) : ℚ :=
  (ys.length : ℚ) * (∑ i ∈ Finset.range ys.length, (i : ℚ) * ys.getD i 0) -
    (∑ i ∈ Finset.range ys.length, (i : ℚ)) *
    (∑ i ∈ Finset.range ys.length, ys.getD i 0)

/-- Model of `linearRegressionSlope` at `xs = [0..n-1]`. -/
def linearRegressionSlope (ys : List ℚ) : ℚ :=
  if ys.length < 2 then 0
  else if slopeDenom ys = 0 then 0
  else slopeNumer ys / slopeDenom ys

/-- The percent-change computation of `detectTrends` (lines 100-104):
slope times span over the mean-centred intercept. -/
def changePercentOf (ys : List ℚ) : ℚ :=
  let slope := linearRegressionSlope ys
  let meanY := ys.foldl (· + ·) 0 / (ys.length : ℚ)
  let firstFitted := meanY - slope * (((ys.length : ℚ) - 1) / 2)
  let totalChange := slope * ((ys.length : ℚ) - 1)
  if firstFitted ≠ 0 then round2 (totalChange / |firstFitted| * 100) else 0

/-- The direction classification of `detectTrends` (lines 106-113). -/
def directionOf (stableThreshold cp : ℚ) : Direction :=
  if |cp| < stableThreshold then .stable
  else if 0 < cp then .increasing
  else .decreasing

/-- The per-category body of `detectTrends` building one `Trend`. -/
def trendFor (category : String) (dataPoints : List TrendPoint)
    (stableThreshold : ℚ) : Trend :=
  let cp := changePercentOf (dataPoints.map (fun p => p.amount))
  ⟨category, directionOf stableThreshold cp, cp, dataPoints⟩

/-- Model of `detectTrends`. -/
def detectTrends (transactions : List Transaction) (options : TrendOptions) :
    List Trend :=
  let minMonths := options.minMonths.getD 3
  let stableThreshold := options.stableThreshold.getD 5
  let f1 : List Transaction :=
    transactions.filter (fun tx => decide (tx.amount < 0))
  let f2 : List Transaction :=
    match options.startDate with
    | some sd => f1.filter (fun tx => YMD.leB sd tx.date)
    | none => f1
  let f3 : List Transaction :=
    match options.endDate with
    | some ed => f2.filter (fun tx => YMD.leB tx.date ed)
    | none => f2
  let filtered : List Transaction :=
    match options.categories with
    | some cats =>
      if cats.length > 0 then
        f3.filter (fun tx => cats.contains (catNameNullish tx))
      else f3
    | none => f3
  if filtered.length = 0 then []
  else
    let categoryMonths := filtered.foldl
      (fun cm tx =>
        updateCatMonth cm (catNameFalsy tx) (monthOf tx.date) |tx.amount|) []
    let trends := categoryMonths.filterMap
      (fun (cmm : String × List ((Nat × Nat) × ℚ)) =>
        let dataPoints := sortB
          (fun (a b : TrendPoint) => monthLeB a.period b.period)
          (cmm.2.map (fun e => TrendPoint.mk e.1 (round2 e.2)))
        if dataPoints.length < minMonths then none
        else some (trendFor cmm.1 dataPoints stableThreshold))
    sortB (fun a b => decide (|b.changePercent| ≤ |a.changePercent|)) trends

end Trends

/-! ## Subscription tracking (`subscriptions.ts`) -/

namespace Subscriptions

/-- Payment frequency enumeration. -/
inductive Frequency
  | weekly
  | monthly
  | quarterly
  | annual
deriving DecidableEq

/-- One price-history entry `{ date, amount }`. -/
structure PricePoint where
  date : YMD
  amount : ℚ
deriving DecidableEq

/-- A detected subscription (`Subscription`). -/
structure Subscription where
  merchant : String
  amount : ℚ
  frequency : Frequency
  nextExpected : YMD
  annualCost : ℚ
  priceHistory : List PricePoint
  priceChanged : Bool
deriving DecidableEq

/-- The result record (`SubscriptionSummary`). -/
structure SubscriptionSummary where
  totalMonthly : ℚ
  totalAnnual : ℚ
  subscriptions : List Subscription
  recentChanges : List Subscription
deriving DecidableEq

/-- One historical occurrence of a recurring charge
(`RecurringTransaction`). -/
structure RecurringTransaction where
  id : String
  date : YMD
  amount : ℚ
  merchant : String
deriving DecidableEq

/-- Options of `analyzeSubscriptions` (`SubscriptionOptions`). -/
structure SubscriptionOptions where
  dayTolerance : Option ℚ := none
  priceChangeThreshold : Option ℚ := none

/-- Placeholder row used to model the non-null assertion `sorted[len - 1]!`
on a group that is nonempty by construction. -/
def dummyRow : RecurringTransaction := ⟨"", ⟨0, 0, 0⟩, 0, ""⟩

/-- Model of the `daysBetween` helper of `subscriptions.ts` (absolute
whole-day difference). -/
def daysBetween (a b : YMD) : Int := |b.toDays - a.toDays|

/-- Model of `isWithin`. -/
def isWithin (value target tolerance : ℚ) : Bool :=
  decide (|value - target| ≤ tolerance)

/-- Model of `annualMultiplier`. -/
def annualMultiplier : Frequency → ℚ
  | .weekly => 52
  | .monthly => 12
  | .quarterly => 4
  | .annual => 1

/-- Model of `detectFrequency`: average inter-payment gap matched against
canonical bands in source order, with the nearest-candidate fallback. -/
def detectFrequency (sorted : List RecurringTransaction) (tolerance : ℚ) :
    Frequency :=
  if sorted.length < 2 then .monthly
  else
    let intervals := (sorted.zip sorted.tail).map
      (fun p => ((daysBetween p.1.date p.2.date : Int) : ℚ))
    let avgInterval := intervals.foldl (· + ·) 0 / (intervals.length : ℚ)
    if isWithin avgInterval 7 tolerance then .weekly
    else if isWithin avgInterval 30 (tolerance + 3) then .monthly
    else if isWithin avgInterval 14 tolerance then .weekly
    else if isWithin avgInterval 91 (tolerance + 10) then .quarterly
    else if isWithin avgInterval 365 (tolerance + 30) then .annual
    else
      (([(Frequency.weekly, (7 : ℚ)), (.monthly, 30), (.quarterly, 91),
         (.annual, 365)]).foldl
        (fun best c =>
          if |avgInterval - c.2| < |avgInterval - best.2| then c else best)
        (Frequency.weekly, 7)).1

/-- Model of `hasPriceChanged`: compares the LAST TWO ENTRIES of the price
history (`history[len-1]` against `history[len-2]`), regardless of whether
their amounts are distinct. -/
def hasPriceChanged (history : List PricePoint) (thresholdPercent : ℚ) :
    Bool :=
  if history.length < 2 then false
  else
    let latest := (history.getLastD ⟨⟨0, 0, 0⟩, 0⟩).amount
    let previous := ((history.dropLast).getLastD ⟨⟨0, 0, 0⟩, 0⟩).amount
    if previous = 0 then decide (latest ≠ 0)
    else decide (|(latest - previous) / previous * 100| ≥ thresholdPercent)

/-- Modelled from the spec (claim C5 reading): the price-change flag is
computed from the latest two DISTINCT chronological amounts of the price
history.  Written from the words of the spec for comparison with
`hasPriceChanged` above, which is translated from the source. -/
def latestTwoDistinctChanged (history : List PricePoint) (t : ℚ) : Bool :=
  match history.reverse.map (fun p => p.amount) with
  | [] => false
  | latest :: earlier =>
    match earlier.find? (fun a => decide (a ≠ latest)) with
    | none => false
    | some previous =>
      if previous = 0 then decide (latest ≠ 0)
      else decide (|(latest - previous) / previous * 100| ≥ t)

/-- Model of `advanceDate` (calendar-aware advance by one period). -/
def advanceDate (d : YMD) : Frequency → YMD
  | .weekly => addDays d 7
  | .monthly => addMonthsJS d 1
  | .quarterly => addMonthsJS d 3
  | .annual => addYearsJS d

/-- Append a row to its merchant group, preserving `Map` insertion order. -/
def pushGroup (m : List (List Char × List RecurringTransaction))
    (k : List Char) (tx : RecurringTransaction) :
    List (List Char × List RecurringTransaction) :=
  match m with
  | [] => [(k, [tx])]
  | (k0, g) :: rest =>
    if k0 = k then (k0, g ++ [tx]) :: rest
    else (k0, g) :: pushGroup rest k tx

/-- The merchant-grouping loop of `analyzeSubscriptions` (lines 60-70). -/
def groupByMerchant (txs : List RecurringTransaction) :
    List (List Char × List RecurringTransaction) :=
  txs.foldl (fun m tx => pushGroup m (normalizeMerchant tx.merchant) tx) []

/-- The per-merchant-group body of `analyzeSubscriptions` (lines 75-113). -/
def mkSubscription (group : List RecurringTransaction)
    (dayTolerance priceChangeThreshold : ℚ) : Subscription :=
  let sorted := sortB (fun a b => YMD.leB a.date b.date) group
  let lastRow := sorted.getLastD dummyRow
  let priceHistory := sorted.map
    (fun tx => PricePoint.mk tx.date (round2 |tx.amount|))
  let frequency := detectFrequency sorted dayTolerance
  let latestAmount := round2 |lastRow.amount|
  let annualCost := round2 (annualMultiplier frequency * latestAmount)
  let priceChanged := hasPriceChanged priceHistory priceChangeThreshold
  let nextExpected := advanceDate lastRow.date frequency
  ⟨lastRow.merchant, latestAmount, frequency, nextExpected, annualCost,
   priceHistory, priceChanged⟩

/-- Model of `analyzeSubscriptions`. -/
def analyzeSubscriptions (recurringTransactions : List RecurringTransaction)
    (options : SubscriptionOptions) : SubscriptionSummary :=
  let dayTolerance := options.dayTolerance.getD 5
  let priceChangeThreshold := options.priceChangeThreshold.getD 1
  if recurringTransactions.length = 0 then ⟨0, 0, [], []⟩
  else
    let groups := groupByMerchant recurringTransactions
    let subsUnsorted := groups.map
      (fun g => mkSubscription g.2 dayTolerance priceChangeThreshold)
    let subscriptions :=
      sortB (fun a b => decide (b.annualCost ≤ a.annualCost)) subsUnsorted
    let totalAnnual := round2
      (subscriptions.foldl (fun s sub => s + sub.annualCost) 0)
    let totalMonthly := round2 (totalAnnual / 12)
    let recentChanges := subscriptions.filter (fun s => s.priceChanged)
    ⟨totalMonthly, totalAnnual, subscriptions, recentChanges⟩

end Subscriptions

/-! ## Cash-flow forecasting (`forecasting.ts`)

The discretionary day-to-day volatility is a `Math.sqrt`, modelled by
`Real.sqrt`; balances stay in `ℚ`.  The current date read by `todayISO()` is
the explicit `today` parameter. -/

namespace Forecasting

/-- One daily projection (`ForecastPoint`). -/
structure ForecastPoint where
  date : YMD
  projected : ℚ
  lower : ℚ
  upper : ℚ
deriving Inhabited

/-- The result record (`CashflowForecast`). -/
structure CashflowForecast where
  currentBalance : ℚ
  projectedBalance : ℚ
  forecastDays : Nat
  dailyProjections : List ForecastPoint
  recurringIncome : ℚ
  recurringExpenses : ℚ
  discretionaryAverage : ℚ

/-- An account (`Account` of `forecasting.ts`); `isAsset?` is optional and
both `undefined` and `false` are falsy. -/
structure Account where
  id : String
  displayName : String
  currentBalance : ℚ
  isAsset : Option Bool := none

/-- Recurring-item frequency enumeration (includes `biweekly`). -/
inductive RFrequency
  | weekly
  | biweekly
  | monthly
  | quarterly
  | annual
deriving DecidableEq

/-- A recurring income/expense stream (`RecurringItem`). -/
structure RecurringItem where
  id : String
  merchant : String
  amount : ℚ
  frequency : RFrequency
  nextDate : YMD

/-- Options of `forecastCashflow` (`ForecastOptions`); the declared
`transactions?` option is dead (the source reads the positional
`transactions` parameter) and is not modelled. -/
structure ForecastOptions where
  forecastDays : Option Nat := none
  accountIds : Option (List String) := none
  recurringMerchantIds : Option (List String) := none

/-- Model of `dailyEquivalent`. -/
def dailyEquivalent (amount : ℚ) : RFrequency → ℚ
  | .weekly => amount / 7
  | .biweekly => amount / 14
  | .monthly => amount / 30
  | .quarterly => amount / 91
  | .annual => amount / 365

/-- Model of `advanceByFrequency` (calendar-aware advance). -/
def advanceByFrequency (d : YMD) : RFrequency → YMD
  | .weekly => addDays d 7
  | .biweekly => addDays d 14
  | .monthly => addMonthsJS d 1
  | .quarterly => addMonthsJS d 3
  | .annual => addYearsJS d

/-- Insertion-ordered update of one day bucket of `computeDailyStats`. -/
def pushDay (m : List (YMD × ℚ)) (k : YMD) (amt : ℚ) : List (YMD × ℚ) :=
  match m with
  | [] => [(k, amt)]
  | (k0, v) :: rest =>
    if k0 = k then (k0, v + amt) :: rest
    else (k0, v) :: pushDay rest k amt

/-- The per-day aggregation loop of `computeDailyStats`. -/
def dayTotalsOf (expenses : List Transaction) : List (YMD × ℚ) :=
  expenses.foldl (fun m tx => pushDay m tx.date |tx.amount|) []

/-- Model of `computeDailyStats`: mean and sample standard deviation of the
per-day spending totals. -/
noncomputable def computeDailyStats (expenses : List Transaction) : ℚ × ℝ :=
  if expenses.length = 0 then (0, 0)
  else
    let values := (dayTotalsOf expenses).map (fun e => e.2)
    if values.length = 0 then (0, 0)
    else
      let n := values.length
      let mean := values.foldl (· + ·) 0 / (n : ℚ)
      let variance :=
        if 1 < n then
          (values.foldl (fun v x => v + (x - mean) * (x - mean)) 0) /
            ((n : ℚ) - 1)
        else 0
      (mean, Real.sqrt (variance : ℝ))

/-- The two `while` loops of `generateOccurrences`, folded into one
fuel-bounded recursion: advance `current` until it reaches `start`, then
collect every occurrence up to `end`.  Each advance moves the date forward by
at least one day on valid dates, so the supplied fuel (one unit per day of
the advanced range plus slack) dominates the iteration count and the
function agrees with the unbounded source loops. -/
def occsFrom (freq : RFrequency) (start endD : YMD) :
    Nat → YMD → List YMD
  | 0, _ => []
  | fuel + 1, current =>
    if YMD.ltB current start then
      occsFrom freq start endD fuel (advanceByFrequency current freq)
    else if YMD.leB current endD then
      current :: occsFrom freq start endD fuel (advanceByFrequency current freq)
    else []

/-- Model of `generateOccurrences` with fuel covering the full date range. -/
def generateOccurrences (item : RecurringItem) (start endD : YMD) :
    List YMD :=
  occsFrom item.frequency start endD
    ((endD.toDays - item.nextDate.toDays).toNat + 2) item.nextDate

/-- Insertion-ordered update of the recurring event calendar. -/
def pushEvent (m : List (YMD × ℚ)) (k : YMD) (amt : ℚ) : List (YMD × ℚ) :=
  match m with
  | [] => [(k, amt)]
  | (k0, v) :: rest =>
    if k0 = k then (k0, v + amt) :: rest
    else (k0, v) :: pushEvent rest k amt

/-- Model of `buildRecurringEventMap`. -/
def buildRecurringEventMap (items : List RecurringItem) (startDate : YMD)
    (days : Nat) : List (YMD × ℚ) :=
  let endDate := addDays startDate days
  items.foldl
    (fun m item =>
      (generateOccurrences item startDate endDate).foldl
        (fun m d => pushEvent m d item.amount) m)
    []

/-- `eventMap.get(date) ?? 0`. -/
def lookupEvent (m : List (YMD × ℚ)) (d : YMD) : ℚ :=
  ((m.find? (fun e => decide (e.1 = d))).map (fun e => e.2)).getD 0

/-- The unrounded lower confidence bound
`runningBalance - dailyStdDev * Math.sqrt(d)` of the day-`d` projection. -/
noncomputable def rawLower (bal : ℚ) (sd : ℝ) (d : Nat) : ℝ :=
  (bal : ℝ) - sd * Real.sqrt (d : ℝ)

/-- The unrounded upper confidence bound
`runningBalance + dailyStdDev * Math.sqrt(d)` of the day-`d` projection. -/
noncomputable def rawUpper (bal : ℚ) (sd : ℝ) (d : Nat) : ℝ :=
  (bal : ℝ) + sd * Real.sqrt (d : ℝ)

/-- Model of the shared `round` helper applied to a real intermediate value,
returning the exact cent value `Math.round(x * 100) / 100`. -/
noncomputable def round2R (x : ℝ) : ℚ := ((⌊x * 100 + 1/2⌋ : ℤ) : ℚ) / 100

/-- The day-by-day projection loop of `forecastCashflow` (lines 114-134):
day index `d`, remaining days as fuel, running balance as state. -/
noncomputable def simulate (today : YMD) (events : List (YMD × ℚ)) (avg : ℚ)
    (sd : ℝ) : Nat → Nat → ℚ → List ForecastPoint
  | _, 0, _ => []
  | d, r + 1, bal =>
    let date := addDays today d
    let bal2 := bal + (lookupEvent events date - avg)
    ⟨date, round2 bal2, round2R (rawLower bal2 sd d),
     round2R (rawUpper bal2 sd d)⟩ ::
      simulate today events avg sd (d + 1) r bal2

/-- Model of `forecastCashflow`; `today` is the clock date of `todayISO()`. -/
noncomputable def forecastCashflow (accounts : List Account)
    (transactions : List Transaction) (recurringItems : List RecurringItem)
    (options : ForecastOptions) (today : YMD) : CashflowForecast :=
  let forecastDays := options.forecastDays.getD 30
  let relevantAccounts : List Account :=
    match options.accountIds with
    | some ids => accounts.filter (fun a => ids.contains a.id)
    | none => accounts.filter (fun a => !(a.isAsset.getD false))
  let currentBalance := relevantAccounts.foldl
    (fun s a => s + a.currentBalance) 0
  let recurringIncome := (recurringItems.filter
      (fun r => decide (0 < r.amount))).foldl
    (fun s r => s + dailyEquivalent r.amount r.frequency) 0
  let recurringExpenses := (recurringItems.filter
      (fun r => decide (r.amount < 0))).foldl
    (fun s r => s + |dailyEquivalent r.amount r.frequency|) 0
  let norms :=
    recurringItems.map (fun r => normalizeMerchant r.merchant) ++
      (options.recurringMerchantIds.getD []).map normalizeMerchant
  let expenses := transactions.filter (fun tx => decide (tx.amount < 0))
  let discretionaryExpenses := expenses.filter
    (fun tx => !(norms.contains (normalizeMerchant tx.merchant)))
  let stats := computeDailyStats discretionaryExpenses
  let eventMap := buildRecurringEventMap recurringItems today forecastDays
  let dailyProjections := simulate today eventMap stats.1 stats.2 1
    forecastDays currentBalance
  let projectedBalance :=
    match dailyProjections.getLast? with
    | some p => p.projected
    | none => currentBalance
  ⟨round2 currentBalance, round2 projectedBalance, forecastDays,
   dailyProjections, round2 recurringIncome, round2 recurringExpenses,
   round2 stats.1⟩

end Forecasting

/-! ## Concrete inputs used by counterexamples and witnesses -/

/-- Concrete subscription input: three Netflix rows whose last two amounts
are equal but whose last two DISTINCT amounts differ by 20 percent. -/
def ex5txs : List Subscriptions.RecurringTransaction :=
  [⟨"a", ⟨2025, 1, 1⟩, -10, "Netflix"⟩,
   ⟨"b", ⟨2025, 2, 1⟩, -12, "Netflix"⟩,
   ⟨"c", ⟨2025, 3, 1⟩, -12, "Netflix"⟩]

/-- The subscription record `analyzeSubscriptions` derives from `ex5txs`. -/
def ex5sub : Subscriptions.Subscription :=
  ⟨"Netflix", 12, .monthly, ⟨2025, 4, 1⟩, 144,
   [⟨⟨2025, 1, 1⟩, 10⟩, ⟨⟨2025, 2, 1⟩, 12⟩, ⟨⟨2025, 3, 1⟩, 12⟩], false⟩

/-- Concrete trend input: a monotonically increasing monthly series whose
total drift (0.2 percent) stays below the default stable threshold of 5. -/
def ex6txs : List Transaction :=
  [⟨"1", ⟨2025, 1, 15⟩, -1000, "Shop", some ⟨"Food"⟩⟩,
   ⟨"2", ⟨2025, 2, 15⟩, -1001, "Shop", some ⟨"Food"⟩⟩,
   ⟨"3", ⟨2025, 3, 15⟩, -1002, "Shop", some ⟨"Food"⟩⟩]

/-- The trend `detectTrends` derives from `ex6txs`: direction `stable`. -/
def ex6trend : Trends.Trend :=
  ⟨"Food", .stable, 1/5,
   [⟨(2025, 1), 1000⟩, ⟨(2025, 2), 1001⟩, ⟨(2025, 3), 1002⟩]⟩

/-- Concrete trend input: a steeply increasing monthly series (100, 200,
300). -/
def ex6wtxs : List Transaction :=
  [⟨"1", ⟨2025, 1, 15⟩, -100, "Shop", some ⟨"Food"⟩⟩,
   ⟨"2", ⟨2025, 2, 15⟩, -200, "Shop", some ⟨"Food"⟩⟩,
   ⟨"3", ⟨2025, 3, 15⟩, -300, "Shop", some ⟨"Food"⟩⟩]

/-- The trend `detectTrends` derives from `ex6wtxs`: direction
`increasing` with `changePercent = 200`. -/
def ex6wtrend : Trends.Trend :=
  ⟨"Food", .increasing, 200,
   [⟨(2025, 1), 100⟩, ⟨(2025, 2), 200⟩, ⟨(2025, 3), 300⟩]⟩

/-- Discretionary expenses for C7 on three consecutive days; the day totals
255/256, 257/256, 259/256 have mean 257/256 and sample standard deviation
exactly 1/128 (all values exactly representable in binary floating point). -/
def txs7 : List Transaction :=
  [⟨"1", ⟨2025, 1, 2⟩, -(255/256), "ShopA", none⟩,
   ⟨"2", ⟨2025, 1, 3⟩, -(257/256), "ShopB", none⟩,
   ⟨"3", ⟨2025, 1, 4⟩, -(259/256), "ShopC", none⟩]

/-- Options for C7: a 14-day forecast. -/
def opts7 : Forecasting.ForecastOptions := { forecastDays := some 14 }

/-- Baseline for C4: three Coffee charges of identical amount, so the
merchant's sample standard deviation is exactly 0. -/
def hist4 : List Transaction :=
  [⟨"h1", ⟨2025, 1, 1⟩, -10, "Coffee", none⟩,
   ⟨"h2", ⟨2025, 1, 2⟩, -10, "Coffee", none⟩,
   ⟨"h3", ⟨2025, 1, 3⟩, -10, "Coffee", none⟩]

/-- Scan set for C4: one Coffee charge deviating by 90 dollars from the
baseline mean. -/
def scan4 : List Transaction :=
  [⟨"s1", ⟨2025, 2, 1⟩, -100, "Coffee", none⟩]

/-- Options for C4: the baseline is supplied as historical transactions. -/
def opts4 : Anomalies.AnomalyOptions := { historicalTransactions := some hist4 }

/-- Baseline for the C4 witness: Coffee amounts 1, 3, 5 give mean 3 and
sample standard deviation exactly 2. -/
def ex4whist : List Transaction :=
  [⟨"h1", ⟨2025, 1, 1⟩, -1, "Coffee", none⟩,
   ⟨"h2", ⟨2025, 1, 2⟩, -3, "Coffee", none⟩,
   ⟨"h3", ⟨2025, 1, 3⟩, -5, "Coffee", none⟩]

/-- Scan set for the C4 witness: a Coffee charge 10 dollars from the mean,
five standard deviations out. -/
def ex4wscan : List Transaction :=
  [⟨"s1", ⟨2025, 2, 1⟩, -13, "Coffee", none⟩]

/-- Options for the C4 witness. -/
def ex4wopts : Anomalies.AnomalyOptions :=
  { historicalTransactions := some ex4whist }

/-- Scan set for the C10 witness: two same-amount Netflix charges one day
apart (a duplicate). -/
def dupTxs : List Transaction :=
  [⟨"a", ⟨2025, 1, 15⟩, -(2999/100), "Netflix", none⟩,
   ⟨"b", ⟨2025, 1, 16⟩, -(2999/100), "Netflix", none⟩]

/-- The single anomaly `detectAnomalies` reports on `dupTxs`. -/
def dupAnomaly : Anomalies.Anomaly :=
  ⟨.duplicate, .medium, ⟨"b", ⟨2025, 1, 16⟩, -(2999/100), "Netflix"⟩⟩

/-! ## Helper lemmas -/

theorem mem_insertB {α : Type} (keep : α → α → Bool) (x a : α) :
    ∀ l : List α, a ∈ insertB keep x l ↔ a = x ∨ a ∈ l := by
  intro l
  induction l with
  | nil => simp [insertB]
  | cons y ys ih =>
      by_cases h : keep y x = true
      · simp only [insertB, h, if_true, List.mem_cons, ih]
        try tauto
      · simp only [insertB, h, if_false, Bool.false_eq_true, List.mem_cons]
        try tauto

theorem mem_sortB_aux {α : Type} (keep : α → α → Bool) (a : α) :
    ∀ (l acc : List α),
      (a ∈ l.foldl (fun acc x => insertB keep x acc) acc ↔ a ∈ l ∨ a ∈ acc) := by
  intro l
  induction l with
  | nil => simp
  | cons x xs ih =>
      intro acc
      simp only [List.foldl_cons, ih, mem_insertB, List.mem_cons]
      tauto

theorem mem_sortB {α : Type} (keep : α → α → Bool) (a : α) (l : List α) :
    a ∈ sortB keep l ↔ a ∈ l := by
  simp [sortB, mem_sortB_aux]

theorem clamp_bounds (v : ℚ) :
    0 ≤ Health.clamp v 0 100 ∧ Health.clamp v 0 100 ≤ 100 := by
  unfold Health.clamp
  exact ⟨le_min (by norm_num) (le_max_left 0 v), min_le_left _ _⟩

theorem ite_bounds {c : Prop} [Decidable c] {a b : ℚ}
    (ha : 0 ≤ a ∧ a ≤ 100) (hb : 0 ≤ b ∧ b ≤ 100) :
    0 ≤ (if c then a else b) ∧ (if c then a else b) ≤ 100 := by
  split_ifs with h
  exacts [ha, hb]

theorem scoreSavingsRate_bounds (txs : List Transaction) :
    0 ≤ (Health.scoreSavingsRate txs).score ∧
      (Health.scoreSavingsRate txs).score ≤ 100 := by
  unfold Health.scoreSavingsRate
  simp only [apply_ite Health.ComponentScore.score]
  exact ite_bounds ⟨by norm_num, by norm_num⟩
    (ite_bounds ⟨by norm_num, by norm_num⟩ (clamp_bounds _))

theorem scoreDebtRatio_bounds (accs : List Health.HealthAccount) :
    0 ≤ (Health.scoreDebtRatio accs).score ∧
      (Health.scoreDebtRatio accs).score ≤ 100 := by
  unfold Health.scoreDebtRatio
  simp only [apply_ite Health.ComponentScore.score]
  exact ite_bounds ⟨by norm_num, by norm_num⟩
    (ite_bounds ⟨by norm_num, by norm_num⟩ (clamp_bounds _))

theorem scoreEmergencyFund_bounds (accs : List Health.HealthAccount)
    (txs : List Transaction) (t : ℚ) :
    0 ≤ (Health.scoreEmergencyFund accs txs t).score ∧
      (Health.scoreEmergencyFund accs txs t).score ≤ 100 := by
  unfold Health.scoreEmergencyFund
  rcases h : txs.filter (fun tx => tx.amount < 0) with _ | ⟨e0, rest⟩ <;>
    simp only [h, apply_ite Health.ComponentScore.score]
  · exact ite_bounds ⟨by norm_num, by norm_num⟩ ⟨by norm_num, by norm_num⟩
  · exact ite_bounds ⟨by norm_num, by norm_num⟩ (clamp_bounds _)

theorem scoreBudgetAdherence_bounds (budgets : List Health.BudgetItem) :
    0 ≤ (Health.scoreBudgetAdherence budgets).score ∧
      (Health.scoreBudgetAdherence budgets).score ≤ 100 := by
  unfold Health.scoreBudgetAdherence
  simp only [apply_ite Health.ComponentScore.score]
  exact ite_bounds ⟨by norm_num, by norm_num⟩ (clamp_bounds _)

theorem scoreNetWorthTrend_bounds (hist : List Health.NetWorthPoint) :
    0 ≤ (Health.scoreNetWorthTrend hist).score ∧
      (Health.scoreNetWorthTrend hist).score ≤ 100 := by
  unfold Health.scoreNetWorthTrend
  rcases h : sortB (fun a b => YMD.leB a.date b.date) hist with _ | ⟨h0, rest⟩ <;>
    simp only [h, apply_ite Health.ComponentScore.score]
  · exact ite_bounds ⟨by norm_num, by norm_num⟩ ⟨by norm_num, by norm_num⟩
  · exact ite_bounds ⟨by norm_num, by norm_num⟩ (clamp_bounds _)

theorem round2_nonneg (q : ℚ) (h : 0 ≤ q) : 0 ≤ round2 q := by
  unfold round2
  apply div_nonneg _ (by norm_num)
  have hfl : (0:ℤ) ≤ ⌊q * 100 + 1/2⌋ := Int.le_floor.2 (by push_cast; linarith)
  exact_mod_cast hfl

theorem round2_nonpos (q : ℚ) (h : q ≤ 0) : round2 q ≤ 0 := by
  unfold round2
  apply div_nonpos_of_nonpos_of_nonneg _ (by norm_num)
  have hfl : ⌊q * 100 + 1/2⌋ < 1 := Int.floor_lt.2 (by push_cast; linarith)
  have h2 : ⌊q * 100 + 1/2⌋ ≤ 0 := by omega
  exact_mod_cast h2

theorem sum_range_id_q (n : ℕ) :
    (∑ i ∈ Finset.range n, (i:ℚ)) = (n:ℚ) * ((n:ℚ) - 1) / 2 := by
  induction n with
  | zero => simp
  | succ m ih =>
      rw [Finset.sum_range_succ, ih]
      push_cast
      ring

theorem sum_range_sq_q (n : ℕ) :
    (∑ i ∈ Finset.range n, (i:ℚ) * (i:ℚ)) =
      (n:ℚ) * ((n:ℚ) - 1) * (2*(n:ℚ) - 1) / 6 := by
  induction n with
  | zero => simp
  | succ m ih =>
      rw [Finset.sum_range_succ, ih]
      push_cast
      ring

theorem slopeDenom_pos (ys : List ℚ) (h : 2 ≤ ys.length) :
    0 < Trends.slopeDenom ys := by
  unfold Trends.slopeDenom
  rw [sum_range_id_q, sum_range_sq_q]
  have h2 : (2:ℚ) ≤ (ys.length:ℚ) := by exact_mod_cast h
  have key : (ys.length:ℚ) *
        ((ys.length:ℚ) * ((ys.length:ℚ) - 1) * (2*(ys.length:ℚ) - 1) / 6) -
      (ys.length:ℚ) * ((ys.length:ℚ) - 1) / 2 *
        ((ys.length:ℚ) * ((ys.length:ℚ) - 1) / 2) =
      (ys.length:ℚ) * (ys.length:ℚ) * ((ys.length:ℚ) - 1) *
        ((ys.length:ℚ) + 1) / 12 := by
    ring
  rw [key]
  have h0 : (0:ℚ) < (ys.length:ℚ) := by linarith
  have h1 : (0:ℚ) < (ys.length:ℚ) - 1 := by linarith
  have h3 : (0:ℚ) < (ys.length:ℚ) + 1 := by linarith
  positivity

theorem slopeNumer_nonneg (ys : List ℚ)
    (hm : ∀ i j, i ≤ j → j < ys.length → ys.getD i 0 ≤ ys.getD j 0) :
    0 ≤ Trends.slopeNumer ys := by
  unfold Trends.slopeNumer
  have hmv : MonovaryOn (fun i : ℕ => (i:ℚ)) (fun i : ℕ => ys.getD i 0)
      (Finset.range ys.length : Finset ℕ) := by
    intro i hi j hj hlt
    by_contra hc
    push_neg at hc
    have hji : j < i := by exact_mod_cast hc
    have := hm j i (le_of_lt hji) (Finset.mem_range.1 hi)
    exact absurd this (not_le.2 hlt)
  have hch := hmv.sum_mul_sum_le_card_mul_sum
  simp only [Finset.card_range] at hch
  linarith

theorem slopeNumer_nonpos (ys : List ℚ)
    (hm : ∀ i j, i ≤ j → j < ys.length → ys.getD j 0 ≤ ys.getD i 0) :
    Trends.slopeNumer ys ≤ 0 := by
  unfold Trends.slopeNumer
  have hav : AntivaryOn (fun i : ℕ => (i:ℚ)) (fun i : ℕ => ys.getD i 0)
      (Finset.range ys.length : Finset ℕ) := by
    intro i hi j hj hlt
    by_contra hc
    push_neg at hc
    have hij : i < j := by exact_mod_cast hc
    have := hm i j (le_of_lt hij) (Finset.mem_range.1 hj)
    exact absurd hlt (not_lt.2 this)
  have hch := hav.card_mul_sum_le_sum_mul_sum
  simp only [Finset.card_range] at hch
  linarith

theorem slope_nonneg (ys : List ℚ)
    (hm : ∀ i j, i ≤ j → j < ys.length → ys.getD i 0 ≤ ys.getD j 0) :
    0 ≤ Trends.linearRegressionSlope ys := by
  unfold Trends.linearRegressionSlope
  split_ifs with h1 h2
  · exact le_refl 0
  · exact le_refl 0
  · have hd := slopeDenom_pos ys (by omega)
    exact div_nonneg (slopeNumer_nonneg ys hm) (le_of_lt hd)

theorem slope_nonpos (ys : List ℚ)
    (hm : ∀ i j, i ≤ j → j < ys.length → ys.getD j 0 ≤ ys.getD i 0) :
    Trends.linearRegressionSlope ys ≤ 0 := by
  unfold Trends.linearRegressionSlope
  split_ifs with h1 h2
  · exact le_refl 0
  · exact le_refl 0
  · have hd := slopeDenom_pos ys (by omega)
    exact div_nonpos_of_nonpos_of_nonneg (slopeNumer_nonpos ys hm)
      (le_of_lt hd)

theorem changePercentOf_nonneg (ys : List ℚ)
    (hm : ∀ i j, i ≤ j → j < ys.length → ys.getD i 0 ≤ ys.getD j 0) :
    0 ≤ Trends.changePercentOf ys := by
  simp only [Trends.changePercentOf]
  by_cases h2 : ys.length < 2
  · have hs : Trends.linearRegressionSlope ys = 0 := by
      unfold Trends.linearRegressionSlope
      rw [if_pos h2]
    rw [hs]
    split_ifs
    · simpa using round2_nonneg 0 (le_refl 0)
    · exact le_refl 0
  · have hs := slope_nonneg ys hm
    have hn1 : (0:ℚ) ≤ (ys.length:ℚ) - 1 := by
      have hc : (2:ℚ) ≤ (ys.length:ℚ) := by
        exact_mod_cast Nat.le_of_not_lt h2
      linarith
    split_ifs with hff
    · apply round2_nonneg
      apply mul_nonneg _ (by norm_num)
      apply div_nonneg (mul_nonneg hs hn1) (abs_nonneg _)
    · exact le_refl 0

theorem changePercentOf_nonpos (ys : List ℚ)
    (hm : ∀ i j, i ≤ j → j < ys.length → ys.getD j 0 ≤ ys.getD i 0) :
    Trends.changePercentOf ys ≤ 0 := by
  simp only [Trends.changePercentOf]
  by_cases h2 : ys.length < 2
  · have hs : Trends.linearRegressionSlope ys = 0 := by
      unfold Trends.linearRegressionSlope
      rw [if_pos h2]
    rw [hs]
    split_ifs
    · simpa using round2_nonpos 0 (le_refl 0)
    · exact le_refl 0
  · have hs := slope_nonpos ys hm
    have hn1 : (0:ℚ) ≤ (ys.length:ℚ) - 1 := by
      have hc : (2:ℚ) ≤ (ys.length:ℚ) := by
        exact_mod_cast Nat.le_of_not_lt h2
      linarith
    split_ifs with hff
    · apply round2_nonpos
      apply mul_nonpos_of_nonpos_of_nonneg _ (by norm_num)
      exact div_nonpos_of_nonpos_of_nonneg
        (mul_nonpos_of_nonpos_of_nonneg hs hn1) (abs_nonneg _)
    · exact le_refl 0

theorem directionOf_of_nonneg (thr cp : ℚ) (hthr : 0 < thr) (hcp : 0 ≤ cp) :
    Trends.directionOf thr cp ≠ .decreasing ∧
      (Trends.directionOf thr cp = .increasing ↔ thr ≤ cp) := by
  unfold Trends.directionOf
  rw [abs_of_nonneg hcp]
  split_ifs with h1 h2
  · exact ⟨by simp, by simp; linarith⟩
  · exact ⟨by simp, by simp; linarith⟩
  · exfalso
    push_neg at h1 h2
    linarith

theorem directionOf_of_nonpos (thr cp : ℚ) (hthr : 0 < thr) (hcp : cp ≤ 0) :
    Trends.directionOf thr cp ≠ .increasing ∧
      (Trends.directionOf thr cp = .decreasing ↔ thr ≤ -cp) := by
  unfold Trends.directionOf
  rw [abs_of_nonpos hcp]
  split_ifs with h1 h2
  · exact ⟨by simp, by simp; linarith⟩
  · exfalso
    linarith
  · push_neg at h1 h2
    exact ⟨by simp, by simp; linarith⟩

theorem sorted_getD_mono (ys : List ℚ) (h : ys.Sorted (· ≤ ·)) :
    ∀ i j, i ≤ j → j < ys.length → ys.getD i 0 ≤ ys.getD j 0 := by
  intro i j hij hj
  rcases eq_or_lt_of_le hij with rfl | hlt
  · exact le_refl _
  · have hi : i < ys.length := lt_trans hlt hj
    rw [List.getD_eq_getElem ys 0 hi, List.getD_eq_getElem ys 0 hj]
    have hrel := h.rel_get_of_lt
      (show (⟨i, hi⟩ : Fin ys.length) < ⟨j, hj⟩ from hlt)
    simpa using hrel

theorem sorted_getD_anti (ys : List ℚ) (h : ys.Sorted (· ≥ ·)) :
    ∀ i j, i ≤ j → j < ys.length → ys.getD j 0 ≤ ys.getD i 0 := by
  intro i j hij hj
  rcases eq_or_lt_of_le hij with rfl | hlt
  · exact le_refl _
  · have hi : i < ys.length := lt_trans hlt hj
    rw [List.getD_eq_getElem ys 0 hi, List.getD_eq_getElem ys 0 hj]
    have hrel := h.rel_get_of_lt
      (show (⟨i, hi⟩ : Fin ys.length) < ⟨j, hj⟩ from hlt)
    simpa using hrel

theorem mem_detectTrends_structure (txs : List Transaction)
    (opts : Trends.TrendOptions) (t : Trends.Trend)
    (h : t ∈ Trends.detectTrends txs opts) :
    t.changePercent =
      Trends.changePercentOf (t.dataPoints.map (fun p => p.amount)) ∧
    t.direction =
      Trends.directionOf (opts.stableThreshold.getD 5) t.changePercent := by
  simp only [Trends.detectTrends] at h
  split at h
  · simp at h
  · rw [mem_sortB, List.mem_filterMap] at h
    obtain ⟨cmm, hc, hsome⟩ := h
    split at hsome
    · exact absurd hsome (by simp)
    · have ht := Option.some_inj.1 hsome
      subst ht
      exact ⟨rfl, rfl⟩

theorem ex6_eval : Trends.detectTrends ex6txs {} = [ex6trend] := by
  norm_num [Trends.detectTrends, ex6txs, ex6trend, Trends.catNameFalsy,
    Trends.catNameNullish, Trends.monthOf, Trends.updateCatMonth,
    Trends.updateMonth, Trends.trendFor, Trends.changePercentOf,
    Trends.linearRegressionSlope, Trends.slopeDenom, Trends.slopeNumer,
    Trends.directionOf, Trends.monthLeB, sortB, insertB, round2,
    Finset.sum_range_succ, Finset.sum_range_zero,
    List.getD_cons_zero, List.getD_cons_succ, List.filterMap_cons,
    List.filterMap_nil, List.foldl_cons, List.foldl_nil, List.map_cons,
    List.map_nil, List.length_cons, List.length_nil, List.filter,
    show |(-1000:ℚ)| = 1000 from by norm_num,
    show |(-1001:ℚ)| = 1001 from by norm_num,
    show |(-1002:ℚ)| = 1002 from by norm_num,
    show |(1000:ℚ)| = 1000 from by norm_num,
    show |(1:ℚ)/5| = 1/5 from by norm_num,
    show (("Food" : String) = "") = False from by simp]

theorem ex6w_eval : Trends.detectTrends ex6wtxs {} = [ex6wtrend] := by
  norm_num [Trends.detectTrends, ex6wtxs, ex6wtrend, Trends.catNameFalsy,
    Trends.catNameNullish, Trends.monthOf, Trends.updateCatMonth,
    Trends.updateMonth, Trends.trendFor, Trends.changePercentOf,
    Trends.linearRegressionSlope, Trends.slopeDenom, Trends.slopeNumer,
    Trends.directionOf, Trends.monthLeB, sortB, insertB, round2,
    Finset.sum_range_succ, Finset.sum_range_zero,
    List.getD_cons_zero, List.getD_cons_succ, List.filterMap_cons,
    List.filterMap_nil, List.foldl_cons, List.foldl_nil, List.map_cons,
    List.map_nil, List.length_cons, List.length_nil, List.filter,
    show |(-100:ℚ)| = 100 from by norm_num,
    show |(-200:ℚ)| = 200 from by norm_num,
    show |(-300:ℚ)| = 300 from by norm_num,
    show |(100:ℚ)| = 100 from by norm_num,
    show |(200:ℚ)| = 200 from by norm_num,
    show (("Food" : String) = "") = False from by simp]

theorem unusualPass_types (txs : List Transaction)
    (stats : List (List Char × Anomalies.MerchantStat)) (t : ℚ) (minTx : Nat)
    (a : Anomalies.Anomaly) (h : a ∈ Anomalies.unusualPass txs stats t minTx) :
    a.type = .unusualAmount := by
  unfold Anomalies.unusualPass at h
  rw [List.mem_filterMap] at h
  obtain ⟨tx, htx, hsome⟩ := h
  rcases hl : Anomalies.lookupStat stats (normalizeMerchant tx.merchant) with _ | st
  · rw [hl] at hsome
    simp at hsome
  · rw [hl] at hsome
    split at hsome
    next heq => exact absurd heq (by simp)
    next st2 heq =>
      split_ifs at hsome with h1 h2
      have he := Option.some_inj.1 hsome
      subst he
      rfl

theorem dupInner_types (tx : Transaction) (rest : List Transaction) (w : ℚ)
    (a : Anomalies.Anomaly) (h : a ∈ Anomalies.dupInner tx rest w) :
    a.type = .duplicate := by
  unfold Anomalies.dupInner at h
  rw [List.mem_filterMap] at h
  obtain ⟨o, ho, hsome⟩ := h
  split at hsome
  · have he := Option.some_inj.1 hsome
    subst he
    rfl
  · simp at hsome

theorem dupPass_types (l : List Transaction) (w : ℚ) (a : Anomalies.Anomaly)
    (h : a ∈ Anomalies.dupPass l w) : a.type = .duplicate := by
  induction l with
  | nil => simp [Anomalies.dupPass] at h
  | cons tx rest ih =>
      simp only [Anomalies.dupPass, List.mem_append] at h
      rcases h with h | h
      · exact dupInner_types tx rest w a h
      · exact ih h

theorem newMerchantFold_types (txs : List Transaction) :
    ∀ (st : List (List Char) × List Anomalies.Anomaly),
      (∀ a ∈ st.2, a.type = .newMerchant) →
      ∀ a ∈ (txs.foldl
        (fun (st : List (List Char) × List Anomalies.Anomaly) tx =>
          let norm := normalizeMerchant tx.merchant
          if st.1.contains norm then st
          else (norm :: st.1, st.2 ++
            [⟨.newMerchant, .low, ⟨tx.id, tx.date, tx.amount, tx.merchant⟩⟩]))
        st).2, a.type = .newMerchant := by
  induction txs with
  | nil =>
      intro st hst a ha
      exact hst a ha
  | cons tx rest ih =>
      intro st hst a ha
      rw [List.foldl_cons] at ha
      refine ih _ ?_ a ha
      intro b hb
      by_cases hc : st.1.contains (normalizeMerchant tx.merchant) = true
      · simp only [hc, if_true] at hb
        exact hst b hb
      · simp only [hc, if_false, Bool.false_eq_true, List.mem_append,
          List.mem_singleton] at hb
        rcases hb with hb | hb
        · exact hst b hb
        · subst hb
          rfl

theorem ex4_stat :
    Anomalies.lookupStat (Anomalies.buildMerchantStats hist4)
      (normalizeMerchant "Coffee") = some ⟨10, 0, 3⟩ := by
  norm_num [Anomalies.lookupStat, Anomalies.buildMerchantStats,
    Anomalies.bucketsOf, Anomalies.pushAmount, Anomalies.statsOf,
    normalizeMerchant, lowerChar, isWsChar, hist4, List.find?,
    show |(-10:ℚ)| = 10 from by norm_num, Real.sqrt_zero]

theorem ex4_eval : Anomalies.detectAnomalies scan4 opts4 = [] := by
  norm_num [Anomalies.detectAnomalies, Anomalies.buildMerchantStats,
    Anomalies.bucketsOf, Anomalies.pushAmount, Anomalies.statsOf,
    Anomalies.lookupStat, Anomalies.unusualPass, Anomalies.dupPass,
    Anomalies.dupInner, Anomalies.newMerchantPass, normalizeMerchant,
    lowerChar, isWsChar, sortB, insertB, Anomalies.anomalyKeep, hist4, scan4,
    opts4, List.find?, Real.sqrt_zero, YMD.leB,
    show |(-10:ℚ)| = 10 from by norm_num,
    show |(-100:ℚ)| = 100 from by norm_num]

theorem ex4w_stat :
    Anomalies.lookupStat (Anomalies.buildMerchantStats
        (ex4wopts.historicalTransactions.getD ex4wscan))
      (normalizeMerchant "Coffee") = some ⟨3, Real.sqrt 4, 3⟩ := by
  norm_num [Anomalies.lookupStat, Anomalies.buildMerchantStats,
    Anomalies.bucketsOf, Anomalies.pushAmount, Anomalies.statsOf,
    normalizeMerchant, lowerChar, isWsChar, ex4whist, ex4wopts, List.find?,
    show |(-1:ℚ)| = 1 from by norm_num,
    show |(-3:ℚ)| = 3 from by norm_num,
    show |(-5:ℚ)| = 5 from by norm_num]

theorem sqrt_four : Real.sqrt 4 = 2 := by
  rw [show (4:ℝ) = 2^2 by norm_num, Real.sqrt_sq (by norm_num)]

theorem ex10_eval : Anomalies.detectAnomalies dupTxs {} = [dupAnomaly] := by
  norm_num [Anomalies.detectAnomalies, Anomalies.buildMerchantStats,
    Anomalies.bucketsOf, Anomalies.pushAmount, Anomalies.statsOf,
    Anomalies.lookupStat, Anomalies.unusualPass, Anomalies.dupPass,
    Anomalies.dupInner, Anomalies.newMerchantPass, normalizeMerchant,
    lowerChar, isWsChar, sortB, insertB, Anomalies.anomalyKeep,
    Anomalies.daysBetween, YMD.toDays, YMD.leB, dupTxs, dupAnomaly,
    List.find?, List.takeWhile, Anomalies.sevOrder,
    List.filterMap_cons, List.filterMap_nil, List.foldl_cons, List.foldl_nil,
    List.map_cons, List.map_nil, List.length_cons, List.length_nil,
    show (("a" : String) = "b") = False from by decide]

theorem simulate_getD (today : YMD) (avg : ℚ) (sd : ℝ) :
    ∀ (r : ℕ) (d : ℕ) (bal : ℚ) (i : ℕ), i < r →
      (Forecasting.simulate today [] avg sd d r bal).getD i default =
        ⟨addDays today (d + i), round2 (bal - (i + 1) * avg),
         Forecasting.round2R
           (Forecasting.rawLower (bal - (i + 1) * avg) sd (d + i)),
         Forecasting.round2R
           (Forecasting.rawUpper (bal - (i + 1) * avg) sd (d + i))⟩ := by
  intro r
  induction r with
  | zero =>
      intro d bal i hi
      exact absurd hi (by omega)
  | succ r ih =>
      intro d bal i hi
      have hb0 : Forecasting.lookupEvent [] (addDays today d) = 0 := rfl
      match i with
      | 0 =>
          simp only [Forecasting.simulate, List.getD_cons_zero]
          rw [hb0,
            show bal + (0 - avg) = bal - (((0:ℕ) : ℚ) + 1) * avg by
              push_cast; ring]
          rfl
      | Nat.succ i =>
          simp only [Forecasting.simulate, List.getD_cons_succ]
          rw [hb0]
          rw [ih (d + 1) (bal + (0 - avg)) i (by omega)]
          have ha : d + 1 + i = d + (i + 1) := by omega
          have hb2 : bal + (0 - avg) - ((i : ℚ) + 1) * avg
              = bal - (((i + 1 : ℕ) : ℚ) + 1) * avg := by
            push_cast
            ring
          rw [ha, hb2]
          simp only [Nat.succ_eq_add_one]
          congr 1
          congr 1
          push_cast
          ring

theorem ex7_sigma : Real.sqrt (((1:ℚ)/16384 : ℚ) : ℝ) = 1/128 := by
  rw [show (((1:ℚ)/16384 : ℚ) : ℝ) = (1/128 : ℝ)^2 by push_cast; norm_num,
    Real.sqrt_sq (by norm_num)]

theorem ex7_proj :
    (Forecasting.forecastCashflow [] txs7 [] opts7 ⟨2025, 1, 1⟩).dailyProjections
      = Forecasting.simulate ⟨2025, 1, 1⟩ [] (257/256)
          (Real.sqrt (((1:ℚ)/16384 : ℚ) : ℝ)) 1 14 0 := by
  norm_num [Forecasting.forecastCashflow, Forecasting.computeDailyStats,
    Forecasting.dayTotalsOf, Forecasting.pushDay,
    Forecasting.buildRecurringEventMap, txs7, opts7,
    show |(-(255/256):ℚ)| = 255/256 from by norm_num,
    show |(-(257/256):ℚ)| = 257/256 from by norm_num,
    show |(-(259/256):ℚ)| = 259/256 from by norm_num]

theorem hasPriceChanged_concat (rest : List Subscriptions.PricePoint)
    (p q : Subscriptions.PricePoint) (t : ℚ) :
    Subscriptions.hasPriceChanged (rest ++ [p, q]) t =
      (if p.amount = 0 then decide (q.amount ≠ 0)
       else decide (|(q.amount - p.amount) / p.amount * 100| ≥ t)) := by
  unfold Subscriptions.hasPriceChanged
  have h2 : ¬ (rest ++ [p, q]).length < 2 := by
    simp only [List.length_append, List.length_cons, List.length_nil]
    omega
  rw [if_neg h2]
  have e1 : rest ++ [p, q] = (rest ++ [p]) ++ [q] := by simp
  rw [e1]
  simp

theorem mem_subscriptions_structure (txs : List Subscriptions.RecurringTransaction)
    (opts : Subscriptions.SubscriptionOptions) (sub : Subscriptions.Subscription)
    (h : sub ∈ (Subscriptions.analyzeSubscriptions txs opts).subscriptions) :
    ∃ g, sub = Subscriptions.mkSubscription g (opts.dayTolerance.getD 5)
      (opts.priceChangeThreshold.getD 1) := by
  unfold Subscriptions.analyzeSubscriptions at h
  by_cases h0 : txs.length = 0
  · rw [if_pos h0] at h
    simp at h
  · rw [if_neg h0] at h
    simp only [mem_sortB, List.mem_map] at h
    obtain ⟨g, _, hg⟩ := h
    exact ⟨g.2, hg.symm⟩

theorem ex5_eval :
    (Subscriptions.analyzeSubscriptions ex5txs {}).subscriptions = [ex5sub] := by
  norm_num [Subscriptions.analyzeSubscriptions, Subscriptions.groupByMerchant,
    Subscriptions.pushGroup, normalizeMerchant, Subscriptions.mkSubscription,
    sortB, insertB, Subscriptions.detectFrequency, Subscriptions.daysBetween,
    YMD.toDays, Subscriptions.isWithin, Subscriptions.hasPriceChanged, round2,
    Subscriptions.advanceDate, addMonthsJS, daysInMonth, isLeap,
    Subscriptions.annualMultiplier, YMD.leB, ex5txs, ex5sub,
    Subscriptions.dummyRow, lowerChar, isWsChar,
    show |(45:ℚ)/2| = 45/2 from by norm_num,
    show |(1:ℚ)/2| = 1/2 from by norm_num]

/-! ## Claim C1 -/

/-- C1: the claim states that for every well-typed transaction array of the
data model (category being `{name}`, `null` or `undefined`), `analyzeSpending`
returns normally and aggregates missing/null categories under
`"Uncategorized"`.  The code reads `tx.category.name` without optional
chaining (`spending.ts` line 83), so the very input of the repository's own
test `handles null/missing categories gracefully` makes it throw a
`TypeError`: the model returns `.error ()` instead of a result.  The claim
(and the test) describe the intent; the code is the slip. -/
theorem C1_theorem :
    Spending.analyzeSpending
      [⟨"1", ⟨2025, 1, 15⟩, -100, "Store A", none⟩,
       ⟨"2", ⟨2025, 1, 15⟩, -50, "Store B", none⟩,
       ⟨"3", ⟨2025, 1, 15⟩, -75, "Store C", some ⟨"Food"⟩⟩]
      {} ⟨2025, 10, 11⟩ = .error () := rfl

/-! ## Claim C2 -/

/-- C2 counterexample: `analyzeSpending` is not independent of the ambient
clock.  With no transactions and no explicit period bounds, `derivePeriod`
falls back to `new Date()` (the `today` parameter of the model), so two runs
on identical inputs under different clock dates return different periods. -/
theorem C2_counterexample :
    Spending.analyzeSpending [] {} ⟨2025, 1, 1⟩ ≠
      Spending.analyzeSpending [] {} ⟨2025, 1, 2⟩ := by
  intro h
  have h1 : (Spending.analyzeSpending [] {} ⟨2025, 1, 1⟩).map
      (fun r => r.periodStart) = .ok ⟨2025, 1, 1⟩ := rfl
  have h2 : (Spending.analyzeSpending [] {} ⟨2025, 1, 2⟩).map
      (fun r => r.periodStart) = .ok ⟨2025, 1, 2⟩ := rfl
  rw [h] at h1
  simpa using h1.symm.trans h2

/-- C2 (amended): each analyzer is a deterministic function of its inputs
together with the current date; the clock is read only by `derivePeriod` in
`analyzeSpending` (when period bounds are not pinned down by the options) and
by `todayISO()` in `forecastCashflow`.  In particular, when both `startDate`
and `endDate` are supplied, `analyzeSpending` does not depend on the clock
date at all. -/
theorem C2_theorem (txs : List Transaction) (opts : Spending.SpendingOptions)
    (s e t1 t2 : YMD) (hs : opts.startDate = some s)
    (he : opts.endDate = some e) :
    Spending.analyzeSpending txs opts t1 = Spending.analyzeSpending txs opts t2 := by
  simp only [Spending.analyzeSpending, hs, he, Spending.derivePeriod]

/-- Witness for C2 at a concrete input: with both period bounds supplied the
result is the same under two different clock dates. -/
theorem C2_witness :
    Spending.analyzeSpending []
        { startDate := some ⟨2025, 1, 1⟩, endDate := some ⟨2025, 1, 31⟩ }
        ⟨2025, 5, 5⟩ =
      Spending.analyzeSpending []
        { startDate := some ⟨2025, 1, 1⟩, endDate := some ⟨2025, 1, 31⟩ }
        ⟨2025, 6, 6⟩ :=
  C2_theorem [] _ ⟨2025, 1, 1⟩ ⟨2025, 1, 31⟩ ⟨2025, 5, 5⟩ ⟨2025, 6, 6⟩ rfl rfl

/-! ## Claim C8 -/

/-- C8 counterexample: monetary outputs are rounded with `Math.round` at the
cent level, which sends a negative exact-half cent fraction toward zero, not
away from it.  For a single expense of `-0.125`, `netCashflow` is `-0.12`
(toward zero), while the spec's round-half-away-from-zero gives `-0.13`. -/
theorem C8_counterexample :
    (Spending.analyzeSpending
        [⟨"1", ⟨2025, 1, 15⟩, -(1/8), "Store", some ⟨"Food"⟩⟩]
        {} ⟨2025, 1, 15⟩).map (fun r => r.netCashflow) = .ok (-(12/100)) ∧
    round2HalfAwayFromZero (-(1/8)) = -(13/100) ∧
    ((-(12/100) : ℚ) ≠ -(13/100)) := by
  refine ⟨?_, ?_, by norm_num⟩
  · simp only [Spending.analyzeSpending, Spending.spendFold, Spending.spendStep,
      Spending.categoryName, Spending.filterByPeriod, round2, Except.map, bind,
      Except.bind]
    norm_num [show |(1:ℚ)/8| = 1/8 from by norm_num]
  · norm_num [round2HalfAwayFromZero]

/-- C8 (amended): monetary outputs of `analyzeSpending` are rounded at the
cent level with the semantics of `Math.round` (ties toward positive
infinity): a positive exact-half cent fraction rounds away from zero while a
negative one rounds toward zero.  For a single expense of `(2k+1)/200`
dollars, the reported `totalSpending` is `(k+1)/100` (half-cent rounded up)
and `netCashflow` is `-k/100` (half-cent rounded toward zero). -/
theorem C8_theorem (k : ℕ) :
    (Spending.analyzeSpending
        [⟨"1", ⟨2025, 1, 15⟩, -((2*(k:ℚ)+1)/200), "Store", some ⟨"Food"⟩⟩]
        {} ⟨2025, 1, 15⟩).map (fun r => (r.totalSpending, r.netCashflow))
      = .ok (((k:ℚ)+1)/100, -(k:ℚ)/100) := by
  have hpos : (0:ℚ) < (2*(k:ℚ)+1)/200 := by positivity
  have hneg : (-((2*(k:ℚ)+1)/200)) < 0 := by linarith
  have habs : |(-((2*(k:ℚ)+1)/200))| = (2*(k:ℚ)+1)/200 := by
    rw [abs_neg]
    exact abs_of_nonneg (le_of_lt hpos)
  simp only [Spending.analyzeSpending, Spending.spendFold, Spending.spendStep,
    Spending.categoryName, Spending.filterByPeriod, round2, Except.map, bind,
    Except.bind, if_pos hneg, habs]
  rw [show ((0:ℚ) + (2*(k:ℚ)+1)/200) * 100 + 1/2 = (((k:ℤ)+1 : ℤ) : ℚ) by
    push_cast; ring]
  rw [show ((0:ℚ) - (0 + (2*(k:ℚ)+1)/200)) * 100 + 1/2 = ((-(k:ℤ) : ℤ) : ℚ) by
    push_cast; ring]
  simp only [Int.floor_intCast]
  norm_num

/-! ## Claim C5 -/

/-- C5 counterexample: for price history 10, 12, 12 (chronological), the code
compares the last two ENTRIES (12 against 12) and reports no price change,
while the claim's "latest two distinct chronological amounts" (12 against 10,
a 20 percent move well above the default 1 percent threshold) would report a
change. -/
theorem C5_counterexample :
    ((Subscriptions.analyzeSubscriptions ex5txs {}).subscriptions.map
        (fun s => s.priceChanged) = [false]) ∧
    Subscriptions.latestTwoDistinctChanged
      [⟨⟨2025, 1, 1⟩, 10⟩, ⟨⟨2025, 2, 1⟩, 12⟩, ⟨⟨2025, 3, 1⟩, 12⟩] 1 = true := by
  constructor
  · rw [ex5_eval]
    rfl
  · norm_num [Subscriptions.latestTwoDistinctChanged, List.find?]

/-- C5 (amended): a subscription's `priceChanged` flag is determined by
comparing the last two chronological ENTRIES of its price history (whether or
not their amounts are distinct): with previous entry `p` and latest entry
`q`, it is true exactly when the absolute percent change from `p` to `q` is
at least `priceChangeThreshold`, a transition from `p = 0` to a non-zero `q`
always counting as a change. -/
theorem C5_theorem (txs : List Subscriptions.RecurringTransaction)
    (opts : Subscriptions.SubscriptionOptions) (sub : Subscriptions.Subscription)
    (h : sub ∈ (Subscriptions.analyzeSubscriptions txs opts).subscriptions)
    (rest : List Subscriptions.PricePoint) (p q : Subscriptions.PricePoint)
    (hh : sub.priceHistory = rest ++ [p, q]) :
    sub.priceChanged =
      (if p.amount = 0 then decide (q.amount ≠ 0)
       else decide (|(q.amount - p.amount) / p.amount * 100| ≥
         opts.priceChangeThreshold.getD 1)) := by
  obtain ⟨g, rfl⟩ := mem_subscriptions_structure txs opts sub h
  have key : (Subscriptions.mkSubscription g (opts.dayTolerance.getD 5)
        (opts.priceChangeThreshold.getD 1)).priceChanged =
      Subscriptions.hasPriceChanged
        (Subscriptions.mkSubscription g (opts.dayTolerance.getD 5)
          (opts.priceChangeThreshold.getD 1)).priceHistory
        (opts.priceChangeThreshold.getD 1) := rfl
  rw [key, hh, hasPriceChanged_concat]

/-- Witness for C5 at the concrete Netflix input (the flag of the derived
subscription agrees with the last-two-entries comparison). -/
theorem C5_witness :
    ex5sub.priceChanged =
      (if ((⟨⟨2025, 2, 1⟩, 12⟩ : Subscriptions.PricePoint)).amount = 0 then
        decide (((⟨⟨2025, 3, 1⟩, 12⟩ : Subscriptions.PricePoint)).amount ≠ 0)
       else decide (|(((⟨⟨2025, 3, 1⟩, 12⟩ : Subscriptions.PricePoint)).amount -
           ((⟨⟨2025, 2, 1⟩, 12⟩ : Subscriptions.PricePoint)).amount) /
           ((⟨⟨2025, 2, 1⟩, 12⟩ : Subscriptions.PricePoint)).amount * 100| ≥
         ({} : Subscriptions.SubscriptionOptions).priceChangeThreshold.getD 1)) :=
  C5_theorem ex5txs {} ex5sub
    (by rw [ex5_eval]; exact List.mem_singleton.mpr rfl)
    [⟨⟨2025, 1, 1⟩, 10⟩] ⟨⟨2025, 2, 1⟩, 12⟩ ⟨⟨2025, 3, 1⟩, 12⟩ rfl

/-! ## Claim C7 -/

/-- C7 counterexample: confidence interval widths of the RETURNED (cent-
rounded) projections are not always non-decreasing.  With no accounts, no
recurring items, a fixed discretionary standard deviation of 1/128 dollars
(from `txs7`) and a 14-day forecast, the day-13 interval is 6 cents wide but
the day-14 interval is 5 cents wide. -/
theorem C7_counterexample :
    ((Forecasting.forecastCashflow [] txs7 [] opts7
        ⟨2025, 1, 1⟩).dailyProjections.getD 13 default).upper -
      ((Forecasting.forecastCashflow [] txs7 [] opts7
        ⟨2025, 1, 1⟩).dailyProjections.getD 13 default).lower <
    ((Forecasting.forecastCashflow [] txs7 [] opts7
        ⟨2025, 1, 1⟩).dailyProjections.getD 12 default).upper -
      ((Forecasting.forecastCashflow [] txs7 [] opts7
        ⟨2025, 1, 1⟩).dailyProjections.getD 12 default).lower := by
  rw [ex7_proj]
  rw [simulate_getD ⟨2025, 1, 1⟩ (257/256) _ 14 1 0 12 (by norm_num)]
  rw [simulate_getD ⟨2025, 1, 1⟩ (257/256) _ 14 1 0 13 (by norm_num)]
  rw [ex7_sigma]
  have s13lo : (33/10 : ℝ) < Real.sqrt 13 :=
    (Real.lt_sqrt (by norm_num)).2 (by norm_num)
  have s13hi : Real.sqrt 13 < 438/100 :=
    (Real.sqrt_lt' (by norm_num)).2 (by norm_num)
  have s14lo : (26/10 : ℝ) < Real.sqrt 14 :=
    (Real.lt_sqrt (by norm_num)).2 (by norm_num)
  have s14hi : Real.sqrt 14 < 38/10 :=
    (Real.sqrt_lt' (by norm_num)).2 (by norm_num)
  have h1 : ⌊(-((1799:ℝ)/128) + 1/128 * Real.sqrt 14) * 100 + 1/2⌋
      = (-1403 : ℤ) := by
    rw [Int.floor_eq_iff]
    constructor
    · push_cast
      linarith
    · push_cast
      linarith
  have h2 : ⌊(-((1799:ℝ)/128) - 1/128 * Real.sqrt 14) * 100 + 1/2⌋
      = (-1408 : ℤ) := by
    rw [Int.floor_eq_iff]
    constructor
    · push_cast
      linarith
    · push_cast
      linarith
  have h3 : ⌊(-((3341:ℝ)/256) + 1/128 * Real.sqrt 13) * 100 + 1/2⌋
      = (-1302 : ℤ) := by
    rw [Int.floor_eq_iff]
    constructor
    · push_cast
      linarith
    · push_cast
      linarith
  have h4 : ⌊(-((3341:ℝ)/256) - 1/128 * Real.sqrt 13) * 100 + 1/2⌋
      = (-1308 : ℤ) := by
    rw [Int.floor_eq_iff]
    constructor
    · push_cast
      linarith
    · push_cast
      linarith
  norm_num [Forecasting.round2R, Forecasting.rawUpper, Forecasting.rawLower,
    h1, h2, h3, h4]

/-- C7 (amended): the UNROUNDED confidence interval width
`(upper - lower) = 2 * dailyStdDev * sqrt(d)` is non-decreasing in the day
index for every fixed nonnegative standard deviation (and any running
balances); only the rounding of the published bounds to whole cents can
shrink the reported width, by at most one cent. -/
theorem C7_theorem (b1 b2 : ℚ) (sd : ℝ) (d1 d2 : ℕ) (hsd : 0 ≤ sd)
    (hd : d1 ≤ d2) :
    Forecasting.rawUpper b1 sd d1 - Forecasting.rawLower b1 sd d1 ≤
      Forecasting.rawUpper b2 sd d2 - Forecasting.rawLower b2 sd d2 := by
  unfold Forecasting.rawUpper Forecasting.rawLower
  have hs : Real.sqrt (d1 : ℝ) ≤ Real.sqrt (d2 : ℝ) :=
    Real.sqrt_le_sqrt (by exact_mod_cast hd)
  have hmul := mul_le_mul_of_nonneg_left hs hsd
  linarith

/-- Witness for C7 at concrete values: standard deviation 1, days 1 and 4. -/
theorem C7_witness :
    Forecasting.rawUpper 0 1 1 - Forecasting.rawLower 0 1 1 ≤
      Forecasting.rawUpper 5 1 4 - Forecasting.rawLower 5 1 4 :=
  C7_theorem 0 5 1 1 4 (by norm_num) (by norm_num)

/-! ## Claim C4 -/

/-- C4 counterexample: with a baseline of three identical Coffee charges
(mean 10, sample standard deviation exactly 0, count 3 meeting the default
`minTransactionsForStats`), a scanned charge of 100 dollars deviates by 90,
which is more than `stdDevThreshold * stdDev = 2 * 0`; the claim demands an
`unusual_amount` anomaly, but `detectAnomalies` returns no anomaly at all
because of the `stats.stdDev > 0` guard. -/
theorem C4_counterexample :
    Anomalies.detectAnomalies scan4 opts4 = [] ∧
    Anomalies.lookupStat (Anomalies.buildMerchantStats hist4)
      (normalizeMerchant "Coffee") = some ⟨10, 0, 3⟩ ∧
    ((|(|(-100:ℚ)| - 10)| : ℚ) : ℝ) > ((2:ℚ) : ℝ) * (0 : ℝ) := by
  refine ⟨ex4_eval, ex4_stat, ?_⟩
  norm_num

/-- C4 (amended): for every merchant with at least `minTransactionsForStats`
baseline observations AND a strictly positive baseline standard deviation,
every scanned transaction whose absolute amount deviates from the baseline
mean by more than `stdDevThreshold` standard deviations is emitted as an
`unusual_amount` anomaly, with severity `high` when the deviation multiplier
is at least 4, `medium` when at least 3, and `low` otherwise.  When the
baseline standard deviation is 0, no `unusual_amount` anomaly is emitted for
that merchant. -/
theorem C4_theorem (txs : List Transaction) (opts : Anomalies.AnomalyOptions)
    (tx : Transaction) (st : Anomalies.MerchantStat)
    (htx : tx ∈ txs)
    (hst : Anomalies.lookupStat
        (Anomalies.buildMerchantStats (opts.historicalTransactions.getD txs))
        (normalizeMerchant tx.merchant) = some st)
    (hcount : ¬ st.count < opts.minTransactionsForStats.getD 3)
    (hsd : 0 < st.stdDev)
    (hdev : ((|(|tx.amount| - st.mean)| : ℚ) : ℝ) >
      ((opts.stdDevThreshold.getD 2 : ℚ) : ℝ) * st.stdDev) :
    ((⟨.unusualAmount,
      Anomalies.severityFromMultiplier
        (((|(|tx.amount| - st.mean)| : ℚ) : ℝ) / st.stdDev),
      ⟨tx.id, tx.date, tx.amount, tx.merchant⟩⟩ : Anomalies.Anomaly) ∈
        Anomalies.detectAnomalies txs opts) ∧
    (∀ m : ℝ,
      (4 ≤ m → Anomalies.severityFromMultiplier m = .high) ∧
      (3 ≤ m → m < 4 → Anomalies.severityFromMultiplier m = .medium) ∧
      (m < 3 → Anomalies.severityFromMultiplier m = .low)) := by
  constructor
  · simp only [Anomalies.detectAnomalies]
    rw [if_neg (show ¬ txs.length = 0 by
      intro h0
      rw [List.length_eq_zero] at h0
      subst h0
      simp at htx)]
    rw [mem_sortB]
    refine List.mem_append.2 (Or.inl (List.mem_append.2 (Or.inl ?_)))
    unfold Anomalies.unusualPass
    rw [List.mem_filterMap]
    refine ⟨tx, htx, ?_⟩
    rw [hst]
    show (if st.count < opts.minTransactionsForStats.getD 3 then none
      else if 0 < st.stdDev ∧
          ((|(|tx.amount| - st.mean)| : ℚ) : ℝ) >
            ((opts.stdDevThreshold.getD 2 : ℚ) : ℝ) * st.stdDev then
        some ⟨.unusualAmount,
          Anomalies.severityFromMultiplier
            (((|(|tx.amount| - st.mean)| : ℚ) : ℝ) / st.stdDev),
          ⟨tx.id, tx.date, tx.amount, tx.merchant⟩⟩
      else none) = some (⟨.unusualAmount,
        Anomalies.severityFromMultiplier
          (((|(|tx.amount| - st.mean)| : ℚ) : ℝ) / st.stdDev),
        ⟨tx.id, tx.date, tx.amount, tx.merchant⟩⟩ : Anomalies.Anomaly)
    rw [if_neg hcount, if_pos ⟨hsd, hdev⟩]
  · intro m
    unfold Anomalies.severityFromMultiplier
    refine ⟨?_, ?_, ?_⟩
    · intro h4
      rw [if_pos h4]
    · intro h3 h4
      rw [if_neg (by linarith), if_pos h3]
    · intro h3
      rw [if_neg (by linarith), if_neg (by linarith)]

/-- Witness for C4 at a concrete input: baseline Coffee amounts 1, 3, 5
(mean 3, standard deviation 2) and a scanned charge of 13 (five standard
deviations out). -/
theorem C4_witness :
    ((⟨.unusualAmount,
      Anomalies.severityFromMultiplier
        (((|(|(-13 : ℚ)| - 3)| : ℚ) : ℝ) / Real.sqrt 4),
      ⟨"s1", ⟨2025, 2, 1⟩, -13, "Coffee"⟩⟩ : Anomalies.Anomaly) ∈
        Anomalies.detectAnomalies ex4wscan ex4wopts) ∧
    (∀ m : ℝ,
      (4 ≤ m → Anomalies.severityFromMultiplier m = .high) ∧
      (3 ≤ m → m < 4 → Anomalies.severityFromMultiplier m = .medium) ∧
      (m < 3 → Anomalies.severityFromMultiplier m = .low)) :=
  C4_theorem ex4wscan ex4wopts ⟨"s1", ⟨2025, 2, 1⟩, -13, "Coffee", none⟩
    ⟨3, Real.sqrt 4, 3⟩ (List.mem_singleton.mpr rfl) ex4w_stat
    (by norm_num [ex4wopts])
    (Real.sqrt_pos.2 (by norm_num))
    (by rw [sqrt_four]
        norm_num [ex4wopts, show |(-13:ℚ)| = 13 from by norm_num,
          show |(10:ℚ)| = 10 from by norm_num])

/-! ## Claim C10 -/

/-- C10: every anomaly `detectAnomalies` returns has type `unusual_amount`,
`duplicate` or `new_merchant`; the declared fourth type `frequency_change`
is never produced. -/
theorem C10_theorem (txs : List Transaction) (opts : Anomalies.AnomalyOptions)
    (a : Anomalies.Anomaly) (h : a ∈ Anomalies.detectAnomalies txs opts) :
    a.type = .unusualAmount ∨ a.type = .duplicate ∨ a.type = .newMerchant := by
  simp only [Anomalies.detectAnomalies] at h
  split at h
  · simp at h
  · rw [mem_sortB] at h
    simp only [List.mem_append] at h
    rcases h with (h | h) | h
    · exact Or.inl (unusualPass_types _ _ _ _ a h)
    · exact Or.inr (Or.inl (dupPass_types _ _ a h))
    · split at h
      · refine Or.inr (Or.inr ?_)
        unfold Anomalies.newMerchantPass at h
        exact newMerchantFold_types _ _ (by intro b hb; simp at hb) a h
      · simp at h

/-- Witness for C10 at a concrete input: the single duplicate anomaly of two
same-amount Netflix charges one day apart. -/
theorem C10_witness :
    dupAnomaly.type = .unusualAmount ∨ dupAnomaly.type = .duplicate ∨
      dupAnomaly.type = .newMerchant :=
  C10_theorem dupTxs {} dupAnomaly
    (by rw [ex10_eval]; exact List.mem_singleton.mpr rfl)

/-! ## Claim C6 -/

/-- C6 counterexample: the monotonically increasing monthly series 1000,
1001, 1002 (at least `minMonths = 3` months) is classified `stable`, not
`increasing`, because its computed `changePercent` (0.2) lies below the
default `stableThreshold` of 5. -/
theorem C6_counterexample :
    (Trends.detectTrends ex6txs {}).map (fun t => t.direction) =
        [Trends.Direction.stable] ∧
    (Trends.detectTrends ex6txs {}).map
        (fun t => t.dataPoints.map (fun p => p.amount)) =
      [[1000, 1001, 1002]] := by
  rw [ex6_eval]
  exact ⟨rfl, rfl⟩

/-- C6 (amended): for every trend whose monthly series is monotonically
nondecreasing, `changePercent` is nonnegative and the direction is never
`decreasing`; it is `increasing` exactly when `changePercent` reaches
`stableThreshold` (below the threshold it is `stable`).  Symmetrically, a
monotonically nonincreasing series yields a nonpositive `changePercent` and
direction `decreasing` exactly when `-changePercent` reaches the threshold,
never `increasing`.  (The threshold is assumed positive; the default is 5.) -/
theorem C6_theorem (txs : List Transaction) (opts : Trends.TrendOptions)
    (t : Trends.Trend) (h : t ∈ Trends.detectTrends txs opts)
    (hthr : 0 < opts.stableThreshold.getD 5) :
    ((t.dataPoints.map (fun p => p.amount)).Sorted (· ≤ ·) →
      0 ≤ t.changePercent ∧ t.direction ≠ .decreasing ∧
      (t.direction = .increasing ↔
        opts.stableThreshold.getD 5 ≤ t.changePercent)) ∧
    ((t.dataPoints.map (fun p => p.amount)).Sorted (· ≥ ·) →
      t.changePercent ≤ 0 ∧ t.direction ≠ .increasing ∧
      (t.direction = .decreasing ↔
        opts.stableThreshold.getD 5 ≤ -t.changePercent)) := by
  obtain ⟨hcp, hdir⟩ := mem_detectTrends_structure txs opts t h
  constructor
  · intro hsort
    have h1 : 0 ≤ t.changePercent := by
      rw [hcp]
      exact changePercentOf_nonneg _ (sorted_getD_mono _ hsort)
    have h2 := directionOf_of_nonneg (opts.stableThreshold.getD 5)
      t.changePercent hthr h1
    rw [hdir]
    exact ⟨h1, h2.1, h2.2⟩
  · intro hsort
    have h1 : t.changePercent ≤ 0 := by
      rw [hcp]
      exact changePercentOf_nonpos _ (sorted_getD_anti _ hsort)
    have h2 := directionOf_of_nonpos (opts.stableThreshold.getD 5)
      t.changePercent hthr h1
    rw [hdir]
    exact ⟨h1, h2.1, h2.2⟩

/-- Witness for C6 at a concrete input: the steeply increasing series 100,
200, 300 with the default threshold. -/
theorem C6_witness :
    ((ex6wtrend.dataPoints.map (fun p => p.amount)).Sorted (· ≤ ·) →
      0 ≤ ex6wtrend.changePercent ∧ ex6wtrend.direction ≠ .decreasing ∧
      (ex6wtrend.direction = .increasing ↔
        ({} : Trends.TrendOptions).stableThreshold.getD 5 ≤
          ex6wtrend.changePercent)) ∧
    ((ex6wtrend.dataPoints.map (fun p => p.amount)).Sorted (· ≥ ·) →
      ex6wtrend.changePercent ≤ 0 ∧ ex6wtrend.direction ≠ .increasing ∧
      (ex6wtrend.direction = .decreasing ↔
        ({} : Trends.TrendOptions).stableThreshold.getD 5 ≤
          -ex6wtrend.changePercent)) :=
  C6_theorem ex6wtxs {} ex6wtrend
    (by rw [ex6w_eval]; exact List.mem_singleton.mpr rfl)
    (by norm_num)

/-! ## Claim C3 -/

/-- C3: `calculateHealthScore` on all-empty inputs returns overall 50 with
every component at the neutral 50; and for every input whatsoever, every
component score and the overall score lie within the interval [0, 100]. -/
theorem C3_theorem :
    ((Health.calculateHealthScore ⟨[], [], [], [], none⟩).overall = 50 ∧
     (Health.calculateHealthScore ⟨[], [], [], [], none⟩).savingsRate.score = 50 ∧
     (Health.calculateHealthScore ⟨[], [], [], [], none⟩).debtRatio.score = 50 ∧
     (Health.calculateHealthScore ⟨[], [], [], [], none⟩).emergencyFund.score = 50 ∧
     (Health.calculateHealthScore ⟨[], [], [], [], none⟩).budgetAdherence.score = 50 ∧
     (Health.calculateHealthScore ⟨[], [], [], [], none⟩).netWorthTrend.score = 50) ∧
    ∀ data : Health.HealthData,
      (0 ≤ (Health.calculateHealthScore data).overall ∧
        (Health.calculateHealthScore data).overall ≤ 100) ∧
      (0 ≤ (Health.calculateHealthScore data).savingsRate.score ∧
        (Health.calculateHealthScore data).savingsRate.score ≤ 100) ∧
      (0 ≤ (Health.calculateHealthScore data).debtRatio.score ∧
        (Health.calculateHealthScore data).debtRatio.score ≤ 100) ∧
      (0 ≤ (Health.calculateHealthScore data).emergencyFund.score ∧
        (Health.calculateHealthScore data).emergencyFund.score ≤ 100) ∧
      (0 ≤ (Health.calculateHealthScore data).budgetAdherence.score ∧
        (Health.calculateHealthScore data).budgetAdherence.score ≤ 100) ∧
      (0 ≤ (Health.calculateHealthScore data).netWorthTrend.score ∧
        (Health.calculateHealthScore data).netWorthTrend.score ≤ 100) := by
  constructor
  · norm_num [Health.calculateHealthScore, Health.scoreSavingsRate,
      Health.scoreDebtRatio, Health.scoreEmergencyFund,
      Health.scoreBudgetAdherence, Health.scoreNetWorthTrend, Health.clamp,
      round2]
  · intro data
    refine ⟨?_, ?_, ?_, ?_, ?_, ?_⟩
    · exact clamp_bounds _
    · exact scoreSavingsRate_bounds _
    · exact scoreDebtRatio_bounds _
    · exact scoreEmergencyFund_bounds _ _ _
    · exact scoreBudgetAdherence_bounds _
    · exact scoreNetWorthTrend_bounds _

end MoneyMCP
